import Mathlib

/-!
Verification development for the dual-strip LED / capacitive-touch firmware
(hardware abstraction layer).  The definitions below are a shallow embedding
of the C++ sources:

  * `src/src/LedController.cpp`     — per-position LED animation state machine
  * `src/src/TouchController.cpp`   — touch sampling, debounce and watches
  * `src/src/EventQueue.cpp`        — event formatting (`sendEvent`)
  * `src/src/CommandController.cpp` — line parsing, dispatch, slot table

Machine integers are modelled as `Nat` with explicit `% 2^w` where overflow
can actually occur (`uint8_t` counters, `uint16_t`/`uint32_t` parse
accumulators, `uint32_t` millisecond clock subtraction).  A bus register
read returns `Option Nat` (`none` = I2C failure); register writes are
recorded in a log.  Events are modelled as the ordered list of `queue…`
calls the code makes.  Configuration constants are taken from
`src/include/Config.h`.
-/

/-- Wrap-around subtraction of two `uint32_t` millisecond timestamps,
as computed by `now - last` in the C++ sources. -/
def sub32 (a b : Nat) : Nat :=
  ((a % 4294967296) + 4294967296 - b % 4294967296) % 4294967296

/-- One decimal digit as a character (`'0'`–`'9'`). -/
def digitChar (n : Nat) : Char := Char.ofNat (48 + n)

/-- Decimal rendering of an unsigned integer, as `snprintf` with `%lu`
produces it (most significant digit first, no sign, no padding). -/
def natChars (n : Nat) : List Char :=
  if h : n < 10 then [digitChar n]
  else natChars (n / 10) ++ [digitChar (n % 10)]
decreasing_by exact Nat.div_lt_self (by omega) (by omega)

-- ===========================================================================
-- Configuration constants (src/include/Config.h)
-- ===========================================================================

def NUM_POSITIONS : Nat := 25
def TOUCH_SENSOR_COUNT : Nat := 25
def NUM_LEDS_STRIP1 : Nat := 190
def NUM_LEDS_STRIP2 : Nat := 190
def ANIMATION_STEP_MS : Nat := 25
def BLINK_INTERVAL_MS : Nat := 150
def TOUCH_DEBOUNCE_PRESS_MS : Nat := 100
def TOUCH_DEBOUNCE_RELEASE_MS : Nat := 100
def COMMAND_QUEUE_SIZE : Nat := 32
def COMMAND_ID_NONE : Nat := 4294967295
def SUCCESS_EXPANSION_RADIUS : Nat := 5
def SEQ_PULSE_COUNT : Nat := 2
def SEQ_PULSE_STEPS : Nat := 20
def SEQ_STEP_DURATION_MS : Nat := 10
def MENU_CHANGE_STEP_MS : Nat := 1
def CAP1188_REG_MAIN_CONTROL : Nat := 0x00
def CAP1188_REG_SENSOR_INPUT_STATUS : Nat := 0x03
def CAP1188_REG_SENSOR_INPUT_DELTA_1 : Nat := 0x10
def CAP1188_REG_SENSITIVITY_CONTROL : Nat := 0x1F
def CAP1188_REG_CALIBRATION_ACTIVE : Nat := 0x26
def CAP1188_CS1_BIT_MASK : Nat := 0x01

/-- `SENSOR_I2C_ADDRESSES` from Config.h (A–Y). -/
def SENSOR_I2C_ADDRESSES : List Nat :=
  [0x1F, 0x1E, 0x1D, 0x1C, 0x3F,
   0x1A, 0x28, 0x29, 0x2A, 0x0E,
   0x0F, 0x18, 0x19, 0x3C, 0x2F,
   0x38, 0x0D, 0x0C, 0x0B, 0x3E,
   0x2C, 0x3D, 0x08, 0x09, 0x0A]

def sensorAddr (i : Nat) : Nat := SENSOR_I2C_ADDRESSES.getD i 0

-- ===========================================================================
-- LED controller model (src/src/LedController.cpp)
-- ===========================================================================

structure Color where
  r : Nat
  g : Nat
  b : Nat
deriving DecidableEq, Repr

def COLOR_SHOW : Color := ⟨0, 0, 255⟩
def COLOR_SUCCESS : Color := ⟨0, 255, 0⟩
def COLOR_BLINK : Color := ⟨0, 255, 0⟩
def COLOR_FAIL : Color := ⟨255, 0, 0⟩
def COLOR_OFF : Color := ⟨0, 0, 0⟩

inductive StripId where
  | STRIP1
  | STRIP2
deriving DecidableEq, Repr

inductive PositionState where
  | OFF
  | SHOWN
  | ANIMATING
  | EXPANDED
  | CONTRACTING
  | BLINKING
deriving DecidableEq, Repr

structure PositionData where
  state : PositionState
  animationStep : Nat
  lastAnimationTime : Nat
  blinkOn : Bool
  expansionRadius : Nat
deriving DecidableEq, Repr

/-- `LED_MAPPINGS` from LedController.cpp (position A–Y ↦ strip, index). -/
def LED_MAPPINGS : List (StripId × Nat) :=
  [(.STRIP1, 153), (.STRIP1, 165), (.STRIP1, 177), (.STRIP2, 177), (.STRIP2, 165),
   (.STRIP2, 153), (.STRIP1, 130), (.STRIP1, 118), (.STRIP1, 105), (.STRIP1, 92),
   (.STRIP2, 105), (.STRIP2, 118), (.STRIP2, 130), (.STRIP1, 55), (.STRIP1, 67),
   (.STRIP1, 79), (.STRIP2, 79), (.STRIP2, 67), (.STRIP2, 55), (.STRIP1, 34),
   (.STRIP1, 22), (.STRIP1, 10), (.STRIP2, 10), (.STRIP2, 22), (.STRIP2, 34)]

def getMapping (position : Nat) : Option (StripId × Nat) :=
  if position ≥ NUM_POSITIONS then none else LED_MAPPINGS.get? position

/-- The full mutable state of `LedController`.  Strip pixel buffers are
functions from the physical index to the stored color. -/
structure LedState where
  strip1 : Nat → Color
  strip2 : Nat → Color
  positions : Nat → PositionData
  sequenceAnimActive : Bool
  sequenceAnimStep : Nat
  sequenceAnimLastTime : Nat
  needsUpdate : Bool
  menuChangeActive : Bool
  menuChangeStep : Nat
  menuChangeRange : Nat
  menuChangeR : Nat
  menuChangeG : Nat
  menuChangeB : Nat
  menuChangeLastTime : Nat

def initPositionData : PositionData :=
  { state := .OFF, animationStep := 0, lastAnimationTime := 0,
    blinkOn := false, expansionRadius := 0 }

/-- `LedController::begin` — the state after initialization. -/
def ledInit : LedState :=
  { strip1 := fun _ => COLOR_OFF
    strip2 := fun _ => COLOR_OFF
    positions := fun _ => initPositionData
    sequenceAnimActive := false
    sequenceAnimStep := 0
    sequenceAnimLastTime := 0
    needsUpdate := false
    menuChangeActive := false
    menuChangeStep := 0
    menuChangeRange := 0
    menuChangeR := 0
    menuChangeG := 0
    menuChangeB := 0
    menuChangeLastTime := 0 }

def getStripLength (strip : StripId) : Nat :=
  match strip with
  | .STRIP1 => NUM_LEDS_STRIP1
  | .STRIP2 => NUM_LEDS_STRIP2

def getStripPixel (s : LedState) (strip : StripId) (idx : Nat) : Color :=
  match strip with
  | .STRIP1 => s.strip1 idx
  | .STRIP2 => s.strip2 idx

def setStripPixel (s : LedState) (strip : StripId) (idx : Nat) (c : Color) : LedState :=
  match strip with
  | .STRIP1 => { s with strip1 := fun q => if q = idx then c else s.strip1 q }
  | .STRIP2 => { s with strip2 := fun q => if q = idx then c else s.strip2 q }

/-- `LedController::setLed` — signed index, negative indices and indices past
the end of the strip are ignored. -/
def setLed (s : LedState) (strip : StripId) (index : Int) (c : Color) : LedState :=
  if index < 0 then s
  else if index < (getStripLength strip : Int) then
    setStripPixel s strip index.toNat c
  else s

def setPositionData (s : LedState) (position : Nat) (pd : PositionData) : LedState :=
  { s with positions := fun q => if q = position then pd else s.positions q }

/-- The signed offsets `-r, -r+1, …, r` traversed by the loop in
`LedController::clearExpandedRegion`. -/
def offsetRange (r : Nat) : List Int :=
  (List.range (2 * r + 1)).map (fun (k : Nat) => (k : Int) - (r : Int))

/-- `LedController::clearExpandedRegion` — clear the pixels around the
position's center up to `max(expansionRadius, SUCCESS_EXPANSION_RADIUS)`
and reset the expansion radius. -/
def clearExpandedRegion (s : LedState) (position : Nat) (m : StripId × Nat) : LedState :=
  let stripLen := getStripLength m.1
  let center : Int := m.2
  let clearRadius := max (s.positions position).expansionRadius SUCCESS_EXPANSION_RADIUS
  let s1 := (offsetRange clearRadius).foldl
    (fun st o =>
      if 0 ≤ center + o ∧ center + o < (stripLen : Int) then
        setLed st m.1 (center + o) COLOR_OFF
      else st)
    s
  setPositionData s1 position
    { (s1.positions position) with expansionRadius := 0 }

/-- `LedController::show`. -/
def ledShow (position : Nat) (s : LedState) : LedState × Bool :=
  if position ≥ NUM_POSITIONS then (s, false)
  else match getMapping position with
  | none => (s, false)
  | some m =>
    let s1 :=
      if (s.positions position).state = .ANIMATING ∨
         (s.positions position).state = .EXPANDED ∨
         (s.positions position).expansionRadius > 0 then
        clearExpandedRegion s position m
      else s
    let s2 := setPositionData s1 position
      { (s1.positions position) with state := .SHOWN, animationStep := 0, expansionRadius := 0 }
    let s3 := setLed s2 m.1 (m.2 : Int) COLOR_SHOW
    ({ s3 with needsUpdate := true }, true)

/-- `LedController::hide`. -/
def ledHide (position : Nat) (s : LedState) : LedState × Bool :=
  if position ≥ NUM_POSITIONS then (s, false)
  else match getMapping position with
  | none => (s, false)
  | some m =>
    let s1 := clearExpandedRegion s position m
    let s2 := setPositionData s1 position
      { (s1.positions position) with
        state := .OFF, animationStep := 0, blinkOn := false, expansionRadius := 0 }
    ({ s2 with needsUpdate := true }, true)

/-- `LedController::hideAll`. -/
def ledHideAll (s : LedState) : LedState :=
  { s with
    strip1 := fun _ => COLOR_OFF
    strip2 := fun _ => COLOR_OFF
    positions := fun q =>
      { (s.positions q) with
        state := .OFF, animationStep := 0, blinkOn := false, expansionRadius := 0 }
    sequenceAnimActive := false
    menuChangeActive := false
    needsUpdate := true }

/-- `LedController::success` (`now` is the `millis()` sample taken inside). -/
def ledSuccess (now : Nat) (position : Nat) (s : LedState) : LedState × Bool :=
  if position ≥ NUM_POSITIONS then (s, false)
  else match getMapping position with
  | none => (s, false)
  | some m =>
    let s1 :=
      if (s.positions position).state = .ANIMATING ∨
         (s.positions position).state = .EXPANDED then
        clearExpandedRegion s position m
      else if (s.positions position).state = .SHOWN then
        setLed s m.1 (m.2 : Int) COLOR_OFF
      else s
    let s2 := setPositionData s1 position
      { (s1.positions position) with
        state := .ANIMATING, animationStep := 0, lastAnimationTime := now }
    let s3 := setLed s2 m.1 (m.2 : Int) COLOR_SUCCESS
    ({ s3 with needsUpdate := true }, true)

/-- `LedController::fail`. -/
def ledFail (position : Nat) (s : LedState) : LedState × Bool :=
  if position ≥ NUM_POSITIONS then (s, false)
  else match getMapping position with
  | none => (s, false)
  | some m =>
    let s1 :=
      if (s.positions position).state = .ANIMATING ∨
         (s.positions position).state = .EXPANDED then
        clearExpandedRegion s position m
      else s
    let s2 := setPositionData s1 position
      { (s1.positions position) with state := .SHOWN, animationStep := 0 }
    let s3 := setLed s2 m.1 (m.2 : Int) COLOR_FAIL
    ({ s3 with needsUpdate := true }, true)

/-- `LedController::contract`. -/
def ledContract (now : Nat) (position : Nat) (s : LedState) : LedState × Bool :=
  if position ≥ NUM_POSITIONS then (s, false)
  else match getMapping position with
  | none => (s, false)
  | some m =>
    let s1 :=
      if (s.positions position).state = .EXPANDED ∨
         (s.positions position).state = .ANIMATING then
        setPositionData s position
          { (s.positions position) with
            state := .CONTRACTING, animationStep := SUCCESS_EXPANSION_RADIUS,
            lastAnimationTime := now }
      else
        let sa := setPositionData s position
          { (s.positions position) with state := .SHOWN }
        setLed sa m.1 (m.2 : Int) COLOR_SUCCESS
    ({ s1 with needsUpdate := true }, true)

/-- `LedController::blink`. -/
def ledBlink (now : Nat) (position : Nat) (s : LedState) : LedState × Bool :=
  if position ≥ NUM_POSITIONS then (s, false)
  else match getMapping position with
  | none => (s, false)
  | some m =>
    let s1 :=
      if (s.positions position).state = .ANIMATING ∨
         (s.positions position).state = .EXPANDED then
        clearExpandedRegion s position m
      else s
    let s2 := setPositionData s1 position
      { (s1.positions position) with
        state := .BLINKING, animationStep := 0, lastAnimationTime := now, blinkOn := true }
    let s3 := setLed s2 m.1 (m.2 : Int) COLOR_BLINK
    ({ s3 with needsUpdate := true }, true)

/-- `LedController::stopBlink`. -/
def ledStopBlink (position : Nat) (s : LedState) : LedState × Bool :=
  if position ≥ NUM_POSITIONS then (s, false)
  else if (s.positions position).state ≠ .BLINKING then (s, true)
  else match getMapping position with
  | none => (s, false)
  | some m =>
    let s1 := setLed s m.1 (m.2 : Int) COLOR_OFF
    let s2 := setPositionData s1 position
      { (s1.positions position) with state := .OFF, animationStep := 0, blinkOn := false }
    ({ s2 with needsUpdate := true }, true)

/-- `LedController::expandStep`.  `newRadius` is a `uint8_t`. -/
def expandStep (position : Nat) (s : LedState) : LedState × Bool :=
  if position ≥ NUM_POSITIONS then (s, false)
  else match getMapping position with
  | none => (s, false)
  | some m =>
    let currentRadius := (s.positions position).expansionRadius
    let newRadius := (currentRadius + 1) % 256
    if newRadius > SUCCESS_EXPANSION_RADIUS then (s, true)
    else
      let leftIndex : Int := (m.2 : Int) - (newRadius : Int)
      let rightIndex : Int := (m.2 : Int) + (newRadius : Int)
      let s1 := setLed s m.1 leftIndex COLOR_SHOW
      let s2 := setLed s1 m.1 rightIndex COLOR_SHOW
      let s3 := setPositionData s2 position
        { (s2.positions position) with expansionRadius := newRadius, state := .SHOWN }
      ({ s3 with needsUpdate := true }, true)

/-- `LedController::contractStep`. -/
def contractStep (position : Nat) (s : LedState) : LedState × Bool :=
  if position ≥ NUM_POSITIONS then (s, false)
  else match getMapping position with
  | none => (s, false)
  | some m =>
    let currentRadius := (s.positions position).expansionRadius
    if currentRadius = 0 then (s, true)
    else
      let leftIndex : Int := (m.2 : Int) - (currentRadius : Int)
      let rightIndex : Int := (m.2 : Int) + (currentRadius : Int)
      let s1 := setLed s m.1 leftIndex COLOR_OFF
      let s2 := setLed s1 m.1 rightIndex COLOR_OFF
      let s3 := setPositionData s2 position
        { (s2.positions position) with expansionRadius := currentRadius - 1 }
      ({ s3 with needsUpdate := true }, true)

/-- `LedController::startSequenceCompletedAnimation`. -/
def startSequenceCompletedAnimation (now : Nat) (s : LedState) : LedState :=
  { s with
    sequenceAnimActive := true
    sequenceAnimStep := 0
    sequenceAnimLastTime := now
    strip1 := fun _ => COLOR_OFF
    strip2 := fun _ => COLOR_OFF
    needsUpdate := true }

def isSequenceCompletedAnimationComplete (s : LedState) : Bool :=
  !s.sequenceAnimActive

/-- `LedController::startMenuChangeAnimation`. -/
def startMenuChangeAnimation (r g b range : Nat) (now : Nat) (s : LedState) : LedState :=
  { s with
    menuChangeActive := true
    menuChangeStep := 0
    menuChangeRange := range
    menuChangeR := r
    menuChangeG := g
    menuChangeB := b
    menuChangeLastTime := now
    strip1 := fun _ => COLOR_OFF
    strip2 := fun _ => COLOR_OFF
    needsUpdate := true }

def isMenuChangeAnimationComplete (s : LedState) : Bool :=
  !s.menuChangeActive

/-- `LedController::isAnimationComplete`. -/
def isAnimationComplete (s : LedState) (position : Nat) : Bool :=
  if position ≥ NUM_POSITIONS then true
  else (s.positions position).state ≠ .ANIMATING

/-- `LedController::isContractComplete`. -/
def isContractComplete (s : LedState) (position : Nat) : Bool :=
  if position ≥ NUM_POSITIONS then true
  else (s.positions position).state ≠ .CONTRACTING

/-- One iteration of the render loop in `LedController::updateAnimation`
(`for r = 1..animationStep`): light `center ± r` in the success color,
with the explicit bounds checks of the source. -/
def renderExpandPair (m : StripId × Nat) (r : Nat) (st : LedState) : LedState :=
  let stripLen := getStripLength m.1
  let center : Int := m.2
  let st1 := if 0 ≤ center - (r : Int) then setLed st m.1 (center - (r : Int)) COLOR_SUCCESS else st
  if center + (r : Int) < (stripLen : Int) then setLed st1 m.1 (center + (r : Int)) COLOR_SUCCESS
  else st1

/-- `LedController::updateAnimation`.  `animationStep` is a `uint8_t`. -/
def updateAnimation (position : Nat) (now : Nat) (s : LedState) : LedState :=
  let pd := s.positions position
  if sub32 now pd.lastAnimationTime < ANIMATION_STEP_MS then s
  else match getMapping position with
  | none => s
  | some m =>
    let step1 := (pd.animationStep + 1) % 256
    let stepF := if step1 ≥ SUCCESS_EXPANSION_RADIUS then SUCCESS_EXPANSION_RADIUS else step1
    let stF := if step1 ≥ SUCCESS_EXPANSION_RADIUS then PositionState.EXPANDED else pd.state
    let s1 := setPositionData s position
      { pd with animationStep := stepF, lastAnimationTime := now, state := stF }
    let s2 := setLed s1 m.1 (m.2 : Int) COLOR_SUCCESS
    let s3 := (List.range stepF).foldl (fun st k => renderExpandPair m (k + 1) st) s2
    { s3 with needsUpdate := true }

/-- `LedController::updateContractAnimation`. -/
def updateContractAnimation (position : Nat) (now : Nat) (s : LedState) : LedState :=
  let pd := s.positions position
  if sub32 now pd.lastAnimationTime < ANIMATION_STEP_MS then s
  else match getMapping position with
  | none => s
  | some m =>
    let stripLen := getStripLength m.1
    let center : Int := m.2
    let s1 :=
      if pd.animationStep > 0 then
        let sa := if 0 ≤ center - (pd.animationStep : Int) then
            setLed s m.1 (center - (pd.animationStep : Int)) COLOR_OFF
          else s
        let sb := if center + (pd.animationStep : Int) < (stripLen : Int) then
            setLed sa m.1 (center + (pd.animationStep : Int)) COLOR_OFF
          else sa
        setPositionData sb position
          { (sb.positions position) with
            animationStep := pd.animationStep - 1, lastAnimationTime := now }
      else
        setPositionData s position { pd with lastAnimationTime := now }
    let s2 := setLed s1 m.1 center COLOR_SUCCESS
    let s3 :=
      if (s2.positions position).animationStep = 0 then
        setPositionData s2 position { (s2.positions position) with state := .SHOWN }
      else s2
    { s3 with needsUpdate := true }

/-- Loop body of the position-animation loop in `LedController::update`:
positions in `ANIMATING` advance the expansion animation, positions in
`CONTRACTING` advance the contraction. -/
def animStepAt (now : Nat) (s : LedState) (i : Nat) : LedState :=
  if (s.positions i).state = .ANIMATING then updateAnimation i now s
  else if (s.positions i).state = .CONTRACTING then updateContractAnimation i now s
  else s

/-- Loop body of `LedController::updateBlinking` for one position. -/
def blinkStepAt (now : Nat) (s : LedState) (i : Nat) : LedState :=
  if (s.positions i).state = .BLINKING then
    let pd := s.positions i
    if sub32 now pd.lastAnimationTime ≥ BLINK_INTERVAL_MS then
      let pd1 := { pd with blinkOn := !pd.blinkOn, lastAnimationTime := now }
      let s1 := setPositionData s i pd1
      match getMapping i with
      | none => s1
      | some m =>
        let c := if pd1.blinkOn then COLOR_BLINK else COLOR_OFF
        { setLed s1 m.1 (m.2 : Int) c with needsUpdate := true }
    else s
  else s

/-- `LedController::updateSequenceCompletedAnimation`. -/
def updateSequenceCompletedAnimation (now : Nat) (s : LedState) : LedState :=
  if sub32 now s.sequenceAnimLastTime < SEQ_STEP_DURATION_MS then s
  else
    let step := (s.sequenceAnimStep + 1) % 256
    let s1 := { s with sequenceAnimStep := step, sequenceAnimLastTime := now }
    let totalSteps := SEQ_PULSE_COUNT * SEQ_PULSE_STEPS * 2
    if step ≥ totalSteps then
      { s1 with
        strip1 := fun _ => COLOR_OFF
        strip2 := fun _ => COLOR_OFF
        needsUpdate := true
        positions := fun q =>
          { (s1.positions q) with state := .OFF, animationStep := 0 }
        sequenceAnimActive := false }
    else
      let stepsPerPulse := SEQ_PULSE_STEPS * 2
      let posInPulse := step % stepsPerPulse
      let brightness :=
        if posInPulse < SEQ_PULSE_STEPS then posInPulse * 40 / SEQ_PULSE_STEPS
        else 40 - (posInPulse - SEQ_PULSE_STEPS) * 40 / SEQ_PULSE_STEPS
      { s1 with
        strip1 := fun _ => ⟨0, brightness, 0⟩
        strip2 := fun _ => ⟨0, brightness, 0⟩
        needsUpdate := true }

/-- `LedController::updateMenuChangeAnimation`.  `m_menuChangeStep` is a
`uint8_t`, so the increment wraps at 256. -/
def updateMenuChangeAnimation (now : Nat) (s : LedState) : LedState :=
  if sub32 now s.menuChangeLastTime < MENU_CHANGE_STEP_MS then s
  else
    let s1 := { s with menuChangeLastTime := now }
    if s1.menuChangeStep ≤ s1.menuChangeRange then
      let c : Color := ⟨s1.menuChangeR, s1.menuChangeG, s1.menuChangeB⟩
      let s2 := setStripPixel s1 .STRIP1 s1.menuChangeStep c
      let s3 := setStripPixel s2 .STRIP2 s2.menuChangeStep c
      { s3 with needsUpdate := true, menuChangeStep := (s3.menuChangeStep + 1) % 256 }
    else
      { s1 with menuChangeActive := false }

/-- Guarded per-tick menu-animation update, as called from
`LedController::update` (only while the animation is active). -/
def menuTick (now : Nat) (s : LedState) : LedState :=
  if s.menuChangeActive then updateMenuChangeAnimation now s else s

/-- `LedController::update` — one animation tick at time `now`. -/
def ledUpdate (now : Nat) (s : LedState) : LedState :=
  let s1 := (List.range NUM_POSITIONS).foldl (animStepAt now) s
  let s2 := (List.range NUM_POSITIONS).foldl (blinkStepAt now) s1
  let s3 := if s2.sequenceAnimActive then updateSequenceCompletedAnimation now s2 else s2
  let s4 := if s3.menuChangeActive then updateMenuChangeAnimation now s3 else s3
  if s4.needsUpdate then { s4 with needsUpdate := false } else s4

-- ===========================================================================
-- Event model (src/src/EventQueue.cpp)
-- ===========================================================================

inductive EventType where
  | ACK
  | DONE
  | ERR
  | BUSY
  | TOUCHED
  | TOUCH_RELEASED
  | SCANNED
  | RECALIBRATED
  | INFO
  | VALUE
deriving DecidableEq, Repr

/-- The `Event` struct.  `action` and `extra` are the C strings stored in
the fixed-size char arrays; `position` is the stored char (`Char.ofNat 0`
plays the role of the C `0` char). -/
structure Event where
  type : EventType
  action : List Char
  position : Char
  commandId : Nat
  extra : List Char
deriving DecidableEq, Repr

def charZero : Char := Char.ofNat 0

def mkAck (action : List Char) (position : Char) (commandId : Nat) : Event :=
  { type := .ACK, action := action, position := position, commandId := commandId, extra := [] }

def mkDone (action : List Char) (position : Char) (commandId : Nat) : Event :=
  { type := .DONE, action := action, position := position, commandId := commandId, extra := [] }

def mkError (reason : List Char) (commandId : Nat) : Event :=
  { type := .ERR, action := [], position := charZero, commandId := commandId, extra := reason }

def mkBusy (commandId : Nat) : Event :=
  { type := .BUSY, action := [], position := charZero, commandId := commandId, extra := [] }

def mkTouched (position : Char) (commandId : Nat) : Event :=
  { type := .TOUCHED, action := [], position := position, commandId := commandId, extra := [] }

def mkTouchReleased (position : Char) (commandId : Nat) : Event :=
  { type := .TOUCH_RELEASED, action := [], position := position,
    commandId := commandId, extra := [] }

def mkScanned (sensorList : List Char) (commandId : Nat) : Event :=
  { type := .SCANNED, action := [], position := charZero,
    commandId := commandId, extra := sensorList }

def mkRecalibrated (position : Char) (commandId : Nat) : Event :=
  { type := .RECALIBRATED, action := [], position := position,
    commandId := commandId, extra := [] }

def mkInfo (commandId : Nat) : Event :=
  { type := .INFO, action := [], position := charZero, commandId := commandId, extra := [] }

/-- `%d` rendering of the signed `int8_t` reading in `queueValue`. -/
def intChars (v : Int) : List Char :=
  if v < 0 then '-' :: natChars (-v).toNat else natChars v.toNat

def mkValue (position : Char) (v : Int) (commandId : Nat) : Event :=
  { type := .VALUE, action := [], position := position,
    commandId := commandId, extra := intChars v }

/-- The type-specific payload part of `EventQueue::sendEvent` (the
`switch` that renders the message before the id suffix is appended). -/
def formatBody (e : Event) : List Char :=
  match e.type with
  | .ACK =>
    ("ACK ").data ++ e.action ++ (if e.position ≠ charZero then [' ', e.position] else [])
  | .DONE =>
    ("DONE ").data ++ e.action ++ (if e.position ≠ charZero then [' ', e.position] else [])
  | .ERR => ("ERR ").data ++ e.extra
  | .BUSY => ("BUSY").data
  | .TOUCHED => ("TOUCHED ").data ++ [e.position]
  | .TOUCH_RELEASED => ("TOUCH_RELEASED ").data ++ [e.position]
  | .SCANNED => ("SCANNED [").data ++ e.extra ++ [']']
  | .RECALIBRATED =>
    if e.position = charZero then ("RECALIBRATED ALL").data
    else ("RECALIBRATED ").data ++ [e.position]
  | .INFO => ("INFO firmware=2.3.0 protocol=2 board=ESP32_WROOM").data
  | .VALUE => ("VALUE ").data ++ [e.position, ' '] ++ e.extra

/-- `EventQueue::sendEvent` — the full wire message (including the trailing
newline) rendered for one event.  Field sizes in the firmware
(`action[16]`, `extra[52]`, message buffer 96) guarantee the
`snprintf` calls never truncate, so the formatting is modelled without
truncation. -/
def formatEvent (e : Event) : List Char :=
  formatBody e ++
    (if e.commandId ≠ COMMAND_ID_NONE then [' ', '#'] ++ natChars e.commandId else [])
    ++ ['\n']

-- ===========================================================================
-- Touch controller model (src/src/TouchController.cpp)
-- ===========================================================================

/-- The I2C bus: `regs` gives the byte a register read returns (`none`
models an I2C failure), `writeOk` whether a register write is acked, and
`writes` the log of write transactions `(address, register, value)`. -/
structure Bus where
  regs : Nat → Nat → Option Nat
  writeOk : Nat → Nat → Bool
  writes : List (Nat × Nat × Nat)

/-- `TouchController::readRegister`. -/
def readRegister (bus : Bus) (address reg : Nat) : Option Nat :=
  bus.regs address reg

/-- `TouchController::writeRegister` — logs the transaction and reports
whether the device acked. -/
def writeRegister (bus : Bus) (address reg value : Nat) : Bus × Bool :=
  ({ bus with writes := bus.writes ++ [(address, reg, value)] }, bus.writeOk address reg)

/-- `TouchSensorState`. -/
structure TouchSensorState where
  active : Bool
  currentTouched : Bool
  debouncedTouched : Bool
  lastReportedTouched : Bool
  lastChangeTime : Nat
deriving DecidableEq, Repr

/-- `ExpectState` — a one-shot watch. -/
structure ExpectState where
  active : Bool
  commandId : Nat
deriving DecidableEq, Repr

structure TouchState where
  sensors : Nat → TouchSensorState
  expectDown : Nat → ExpectState
  expectUp : Nat → ExpectState

def inactiveSensor : TouchSensorState :=
  { active := false, currentTouched := false, debouncedTouched := false,
    lastReportedTouched := false, lastChangeTime := 0 }

def inactiveExpect : ExpectState := { active := false, commandId := COMMAND_ID_NONE }

/-- `TouchController::indexToLetter`. -/
def indexToLetter (index : Nat) : Char :=
  if index < TOUCH_SENSOR_COUNT then Char.ofNat (65 + index) else '?'

/-- `TouchController::letterToIndex`. -/
def letterToIndex (letter : Char) : Nat :=
  let l := if 'a' ≤ letter ∧ letter ≤ 'y' then Char.ofNat (letter.toNat - 32) else letter
  if 'A' ≤ l ∧ l ≤ 'Y' then l.toNat - 65 else 255

/-- `TouchController::readRawTouch` — returns `-1` on I2C error, `0` for
not touched, `1` for touched.  A successful "touched" read also clears
bit 0 of the main-control register (interrupt ack). -/
def readRawTouch (bus : Bus) (address : Nat) : Int × Bus :=
  match readRegister bus address CAP1188_REG_SENSOR_INPUT_STATUS with
  | none => (-1, bus)
  | some status =>
    let touched := status &&& CAP1188_CS1_BIT_MASK ≠ 0
    if touched then
      let bus1 :=
        match readRegister bus address CAP1188_REG_MAIN_CONTROL with
        | some mainControl => (writeRegister bus address CAP1188_REG_MAIN_CONTROL
            (mainControl &&& 0xFE)).1
        | none => bus
      (1, bus1)
    else (0, bus)

/-- Loop body of `TouchController::pollSensors` for channel `i`.  Note the
source assigns the `int8_t` result of `readRawTouch` to a `bool`
(`bool touched = readRawTouch(address)`), so the error value `-1`
converts to `true`. -/
def pollSensorAt (now : Nat) (acc : TouchState × Bus) (i : Nat) : TouchState × Bus :=
  let (ts, bus) := acc
  let sensor := ts.sensors i
  if !sensor.active then (ts, bus)
  else
    let address := sensorAddr i
    let (raw, bus1) := readRawTouch bus address
    let touched : Bool := raw ≠ 0
    if touched ≠ sensor.currentTouched then
      let sensor1 :=
        { sensor with
          currentTouched := touched
          lastChangeTime :=
            if touched ≠ sensor.debouncedTouched then now else sensor.lastChangeTime }
      ({ ts with sensors := fun q => if q = i then sensor1 else ts.sensors q }, bus1)
    else (ts, bus1)

/-- `TouchController::pollSensors`. -/
def pollSensors (now : Nat) (ts : TouchState) (bus : Bus) : TouchState × Bus :=
  (List.range TOUCH_SENSOR_COUNT).foldl (pollSensorAt now) (ts, bus)

/-- `TouchController::processDebounce`, restricted to one channel: the pure
effect on that channel's sensor state and its two watches, together with
the events enqueued for it. -/
def debounceChannel (now : Nat) (letter : Char)
    (sensor : TouchSensorState) (wd wu : ExpectState) :
    TouchSensorState × ExpectState × ExpectState × List Event :=
  if !sensor.active then (sensor, wd, wu, [])
  else if sensor.currentTouched ≠ sensor.debouncedTouched then
    let elapsed := sub32 now sensor.lastChangeTime
    let requiredDebounce :=
      if sensor.currentTouched then TOUCH_DEBOUNCE_PRESS_MS else TOUCH_DEBOUNCE_RELEASE_MS
    if elapsed ≥ requiredDebounce then
      let sensor1 := { sensor with debouncedTouched := sensor.currentTouched }
      if sensor1.debouncedTouched ≠ sensor1.lastReportedTouched then
        let sensor2 := { sensor1 with lastReportedTouched := sensor1.debouncedTouched }
        if sensor2.debouncedTouched then
          if wd.active then
            (sensor2, inactiveExpect, wu, [mkTouched letter wd.commandId])
          else (sensor2, wd, wu, [])
        else
          if wu.active then
            (sensor2, wd, inactiveExpect, [mkTouchReleased letter wu.commandId])
          else (sensor2, wd, wu, [])
      else (sensor1, wd, wu, [])
    else (sensor, wd, wu, [])
  else (sensor, wd, wu, [])

/-- Loop body of `TouchController::processDebounce` for channel `i`. -/
def debounceAt (now : Nat) (acc : TouchState × List Event) (i : Nat) :
    TouchState × List Event :=
  let (ts, evs) := acc
  let (sensor1, wd1, wu1, evsi) :=
    debounceChannel now (indexToLetter i) (ts.sensors i) (ts.expectDown i) (ts.expectUp i)
  ({ sensors := fun q => if q = i then sensor1 else ts.sensors q
     expectDown := fun q => if q = i then wd1 else ts.expectDown q
     expectUp := fun q => if q = i then wu1 else ts.expectUp q }, evs ++ evsi)

/-- `TouchController::processDebounce`. -/
def processDebounce (now : Nat) (ts : TouchState) : TouchState × List Event :=
  (List.range TOUCH_SENSOR_COUNT).foldl (debounceAt now) (ts, [])

/-- `TouchController::setExpectDown`. -/
def setExpectDown (sensorIndex commandId : Nat) (ts : TouchState) : TouchState :=
  if sensorIndex ≥ TOUCH_SENSOR_COUNT then ts
  else { ts with expectDown := fun q =>
    if q = sensorIndex then { active := true, commandId := commandId } else ts.expectDown q }

/-- `TouchController::setExpectUp`. -/
def setExpectUp (sensorIndex commandId : Nat) (ts : TouchState) : TouchState :=
  if sensorIndex ≥ TOUCH_SENSOR_COUNT then ts
  else { ts with expectUp := fun q =>
    if q = sensorIndex then { active := true, commandId := commandId } else ts.expectUp q }

/-- `TouchController::recalibrate`. -/
def recalibrate (sensorIndex : Nat) (ts : TouchState) (bus : Bus) : Bus × Bool :=
  if sensorIndex ≥ TOUCH_SENSOR_COUNT then (bus, false)
  else if !(ts.sensors sensorIndex).active then (bus, false)
  else writeRegister bus (sensorAddr sensorIndex) CAP1188_REG_CALIBRATION_ACTIVE
    CAP1188_CS1_BIT_MASK

/-- `TouchController::recalibrateAll`. -/
def recalibrateAll (ts : TouchState) (bus : Bus) : Bus :=
  (List.range TOUCH_SENSOR_COUNT).foldl
    (fun b i => if (ts.sensors i).active then (recalibrate i ts b).1 else b) bus

/-- `TouchController::setSensitivity` — read-modify-write of the
DELTA_SENSE field (bits 6:4) of the sensitivity-control register. -/
def setSensitivity (sensorIndex level : Nat) (ts : TouchState) (bus : Bus) : Bus × Bool :=
  if sensorIndex ≥ TOUCH_SENSOR_COUNT then (bus, false)
  else if !(ts.sensors sensorIndex).active then (bus, false)
  else if level > 7 then (bus, false)
  else
    let address := sensorAddr sensorIndex
    match readRegister bus address CAP1188_REG_SENSITIVITY_CONTROL with
    | none => (bus, false)
    | some regValue =>
      writeRegister bus address CAP1188_REG_SENSITIVITY_CONTROL
        ((regValue &&& 0x8F) ||| (level <<< 4))

/-- `TouchController::readSensorValue` — the raw delta count interpreted as
a signed `int8_t`. -/
def readSensorValue (sensorIndex : Nat) (ts : TouchState) (bus : Bus) : Option Int :=
  if sensorIndex ≥ TOUCH_SENSOR_COUNT then none
  else if !(ts.sensors sensorIndex).active then none
  else
    match readRegister bus (sensorAddr sensorIndex) CAP1188_REG_SENSOR_INPUT_DELTA_1 with
    | none => none
    | some rawValue =>
      some (if rawValue % 256 < 128 then (rawValue % 256 : Int) else (rawValue % 256 : Int) - 256)

/-- `TouchController::buildActiveSensorList` (buffer size 64): the comma
separated letters of the active channels. -/
def buildActiveSensorList (ts : TouchState) : List Char :=
  ((List.range TOUCH_SENSOR_COUNT).foldl
    (fun (acc : List Char × Bool) i =>
      if (ts.sensors i).active then
        let needed := if acc.2 then 2 else 3
        if acc.1.length + needed > 64 then acc
        else if acc.2 then (acc.1 ++ [indexToLetter i], false)
        else (acc.1 ++ [',', indexToLetter i], false)
      else acc)
    ([], true)).1

/-- `TouchController::isTouched`. -/
def isTouched (sensorIndex : Nat) (ts : TouchState) : Bool :=
  if sensorIndex ≥ TOUCH_SENSOR_COUNT then false
  else (ts.sensors sensorIndex).debouncedTouched

-- ===========================================================================
-- Command controller model (src/src/CommandController.cpp)
-- ===========================================================================

inductive CommandAction where
  | INVALID
  | SHOW
  | HIDE
  | HIDE_ALL
  | SUCCESS
  | FAIL
  | CONTRACT
  | BLINK
  | STOP_BLINK
  | EXPAND_STEP
  | CONTRACT_STEP
  | MENUE_CHANGE
  | EXPECT
  | EXPECT_RELEASE
  | RECALIBRATE
  | RECALIBRATE_ALL
  | VALUE
  | SET_SENSITIVITY
  | SCAN
  | SEQUENCE_COMPLETED
  | INFO
  | PING
deriving DecidableEq, Repr

structure ParsedCommand where
  action : CommandAction
  hasPosition : Bool
  position : Char
  positionIndex : Nat
  hasId : Bool
  id : Nat
  extraValue : Nat
  r : Nat
  g : Nat
  b : Nat
  range : Nat
  valid : Bool
deriving DecidableEq, Repr

/-- The all-defaults command record produced at the top of
`CommandController::parseLine`. -/
def emptyCommand : ParsedCommand :=
  { action := .INVALID, hasPosition := false, position := charZero, positionIndex := 255,
    hasId := false, id := COMMAND_ID_NONE, extraValue := 0, r := 0, g := 0, b := 0,
    range := 0, valid := false }

structure QueuedCommand where
  command : ParsedCommand
  active : Bool
  startTime : Nat
  state : Nat
deriving DecidableEq, Repr

/-- Case-folding of one char as done in `strcasecmpN` / position parsing
(`'a'..'z'` mapped to upper case). -/
def upChar (c : Char) : Char :=
  if 'a' ≤ c ∧ c ≤ 'z' then Char.ofNat (c.toNat - 32) else c

/-- `CommandController::charToIndex`. -/
def charToIndex (c : Char) : Nat :=
  let c1 := if 'a' ≤ c ∧ c ≤ 'y' then Char.ofNat (c.toNat - 32) else c
  if 'A' ≤ c1 ∧ c1 ≤ 'Y' then c1.toNat - 65 else 255

/-- `CommandController::skipWhitespace`. -/
def skipWhitespace (p : List Char) : List Char :=
  p.dropWhile (fun c => c == ' ' || c == '\t')

/-- Token delimiters of `CommandController::findTokenEnd`. -/
def isTokenEnd (c : Char) : Bool :=
  c == ' ' || c == '\t' || c == '\n' || c == '\r'

/-- `CommandController::parseAction` — keyword lookup; `strcasecmpN`
compares the token case-insensitively against each keyword and requires
equal length, which amounts to comparing the upper-cased token. -/
def parseAction (tok : List Char) : CommandAction :=
  let t := tok.map upChar
  if t = ("SHOW").data then .SHOW
  else if t = ("HIDE_ALL").data then .HIDE_ALL
  else if t = ("HIDE").data then .HIDE
  else if t = ("SUCCESS").data then .SUCCESS
  else if t = ("FAIL").data then .FAIL
  else if t = ("CONTRACT").data then .CONTRACT
  else if t = ("BLINK").data then .BLINK
  else if t = ("STOP_BLINK").data then .STOP_BLINK
  else if t = ("EXPAND_STEP").data then .EXPAND_STEP
  else if t = ("CONTRACT_STEP").data then .CONTRACT_STEP
  else if t = ("MENUE_CHANGE").data then .MENUE_CHANGE
  else if t = ("EXPECT").data then .EXPECT
  else if t = ("EXPECT_RELEASE").data then .EXPECT_RELEASE
  else if t = ("RECALIBRATE").data then .RECALIBRATE
  else if t = ("RECALIBRATE_ALL").data then .RECALIBRATE_ALL
  else if t = ("VALUE").data then .VALUE
  else if t = ("SET_SENSITIVITY").data then .SET_SENSITIVITY
  else if t = ("SCAN").data then .SCAN
  else if t = ("SEQUENCE_COMPLETED").data then .SEQUENCE_COMPLETED
  else if t = ("INFO").data then .INFO
  else if t = ("PING").data then .PING
  else .INVALID

/-- `CommandController::actionToString`. -/
def actionToString (action : CommandAction) : List Char :=
  match action with
  | .SHOW => ("SHOW").data
  | .HIDE => ("HIDE").data
  | .HIDE_ALL => ("HIDE_ALL").data
  | .SUCCESS => ("SUCCESS").data
  | .FAIL => ("FAIL").data
  | .CONTRACT => ("CONTRACT").data
  | .BLINK => ("BLINK").data
  | .STOP_BLINK => ("STOP_BLINK").data
  | .EXPAND_STEP => ("EXPAND_STEP").data
  | .CONTRACT_STEP => ("CONTRACT_STEP").data
  | .MENUE_CHANGE => ("MENUE_CHANGE").data
  | .EXPECT => ("EXPECT").data
  | .EXPECT_RELEASE => ("EXPECT_RELEASE").data
  | .RECALIBRATE => ("RECALIBRATE").data
  | .RECALIBRATE_ALL => ("RECALIBRATE_ALL").data
  | .VALUE => ("VALUE").data
  | .SET_SENSITIVITY => ("SET_SENSITIVITY").data
  | .SCAN => ("SCAN").data
  | .SEQUENCE_COMPLETED => ("SEQUENCE_COMPLETED").data
  | .INFO => ("INFO").data
  | .PING => ("PING").data
  | .INVALID => ("INVALID").data

/-- `CommandController::actionRequiresPosition`. -/
def actionRequiresPosition (action : CommandAction) : Bool :=
  match action with
  | .SHOW | .HIDE | .SUCCESS | .FAIL | .CONTRACT | .BLINK | .STOP_BLINK
  | .EXPAND_STEP | .CONTRACT_STEP | .EXPECT | .EXPECT_RELEASE | .RECALIBRATE
  | .VALUE | .SET_SENSITIVITY => true
  | _ => false

/-- `CommandController::actionIsLongRunning`. -/
def actionIsLongRunning (action : CommandAction) : Bool :=
  match action with
  | .SUCCESS | .CONTRACT | .SEQUENCE_COMPLETED | .MENUE_CHANGE => true
  | _ => false

/-- Digit-accumulation loop `val = val * 10 + (*p - '0')` over a maximal
digit run, with the accumulator wrapping at the given modulus (the C
accumulators are `uint8_t`, `uint16_t` or `uint32_t`). -/
def accumDigits (modulus : Nat) (p : List Char) : Nat × List Char :=
  let digits := p.takeWhile Char.isDigit
  let rest := p.dropWhile Char.isDigit
  (digits.foldl (fun v c => (v * 10 + (c.toNat - 48)) % modulus) 0, rest)

/-- `CommandController::parseLine` — returns the parsed command on success
and the list of error events enqueued while parsing. -/
def parseLineM (line : List Char) : Option ParsedCommand × List Event :=
  let cmd := emptyCommand
  let p := skipWhitespace line
  if p = [] then (none, [])
  else
    let tok := p.takeWhile (fun c => !isTokenEnd c)
    let action := parseAction tok
    if action = .INVALID then
      (none, [mkError ("unknown_action").data COMMAND_ID_NONE])
    else
      let cmd := { cmd with action := action }
      let p := skipWhitespace (p.dropWhile (fun c => !isTokenEnd c))
      if action = .MENUE_CHANGE then
        -- <r,g,b> <range>, each accumulated in a uint16_t
        let (rv, p) := accumDigits 65536 p
        if rv > 255 then (none, [mkError ("bad_format").data COMMAND_ID_NONE])
        else match p with
        | ',' :: p =>
          let (gv, p) := accumDigits 65536 p
          if gv > 255 then (none, [mkError ("bad_format").data COMMAND_ID_NONE])
          else match p with
          | ',' :: p =>
            let (bv, p) := accumDigits 65536 p
            if bv > 255 then (none, [mkError ("bad_format").data COMMAND_ID_NONE])
            else
              let p := skipWhitespace p
              let (rangev, _) := accumDigits 65536 p
              if rangev > 255 then (none, [mkError ("bad_format").data COMMAND_ID_NONE])
              else
                (some { cmd with r := rv, g := gv, b := bv, range := rangev, valid := true },
                 [])
          | _ => (none, [mkError ("bad_format").data COMMAND_ID_NONE])
        | _ => (none, [mkError ("bad_format").data COMMAND_ID_NONE])
      else
        -- after the position: SET_SENSITIVITY level, then optional #id
        let parseTail : ParsedCommand → List Char → Option ParsedCommand × List Event :=
          fun cmd1 p1 =>
            let parseId : ParsedCommand → List Char → Option ParsedCommand × List Event :=
              fun cmd2 p2 =>
                match p2 with
                | '#' :: p3 =>
                  let (idv, _) := accumDigits 4294967296 p3
                  (some { cmd2 with hasId := true, id := idv, valid := true }, [])
                | _ => (some { cmd2 with valid := true }, [])
            if cmd1.action = .SET_SENSITIVITY then
              match p1 with
              | [] => (none, [mkError ("bad_format").data COMMAND_ID_NONE])
              | c :: _ =>
                if c = '#' then (none, [mkError ("bad_format").data COMMAND_ID_NONE])
                else
                  let (val, p2) := accumDigits 256 p1
                  if val > 7 then (none, [mkError ("invalid_level").data COMMAND_ID_NONE])
                  else parseId { cmd1 with extraValue := val } (skipWhitespace p2)
            else parseId cmd1 p1
        if actionRequiresPosition action then
          match p with
          | [] => (none, [mkError ("bad_format").data COMMAND_ID_NONE])
          | c :: rest =>
            if c = '#' then (none, [mkError ("bad_format").data COMMAND_ID_NONE])
            else
              let posChar := if 'a' ≤ c ∧ c ≤ 'z' then Char.ofNat (c.toNat - 32) else c
              let idx := charToIndex posChar
              if idx = 255 then (none, [mkError ("unknown_position").data COMMAND_ID_NONE])
              else
                let cmdPos := { cmd with
                  position := posChar
                  positionIndex := idx
                  hasPosition := true }
                parseTail cmdPos (skipWhitespace rest)
        else parseTail cmd p

/-- Combined firmware state visible to `CommandController`: the LED
controller, the touch controller (plus its I2C bus), the availability of
the touch controller (`m_touchController != nullptr`) and the
long-running command slot table (`m_commandQueue`). -/
structure Sys where
  led : LedState
  touch : TouchState
  bus : Bus
  touchPresent : Bool
  table : List QueuedCommand

/-- `cmd.hasId ? cmd.id : NO_COMMAND_ID`. -/
def cmdIdOf (cmd : ParsedCommand) : Nat :=
  if cmd.hasId then cmd.id else COMMAND_ID_NONE

/-- `CommandController::isQueueFull`. -/
def isQueueFull (table : List QueuedCommand) : Bool :=
  table.all (·.active)

/-- Find the first free slot of `m_commandQueue` and occupy it, as the loop
in `CommandController::queueCommand` does. -/
def fillFirstFreeSlot (newQC : QueuedCommand) :
    List QueuedCommand → Option (List QueuedCommand)
  | [] => none
  | q :: rest =>
    if q.active then (fillFirstFreeSlot newQC rest).map (q :: ·)
    else some (newQC :: rest)

/-- The side effect started by `CommandController::queueCommand` when a
long-running command is admitted. -/
def startLongRunningEffect (now : Nat) (cmd : ParsedCommand) (led : LedState) : LedState :=
  if cmd.action = .SUCCESS then (ledSuccess now cmd.positionIndex led).1
  else if cmd.action = .CONTRACT then (ledContract now cmd.positionIndex led).1
  else if cmd.action = .SEQUENCE_COMPLETED then startSequenceCompletedAnimation now led
  else if cmd.action = .MENUE_CHANGE then
    startMenuChangeAnimation cmd.r cmd.g cmd.b cmd.range now led
  else led

/-- `CommandController::queueCommand` — admit a long-running command into
the slot table; on success emit the ACK and start the side effect. -/
def queueCommand (now : Nat) (sys : Sys) (cmd : ParsedCommand) :
    Sys × List Event × Bool :=
  let newQC : QueuedCommand :=
    { command := cmd, active := true, startTime := now, state := 0 }
  match fillFirstFreeSlot newQC sys.table with
  | none => (sys, [], false)
  | some table1 =>
    ({ sys with
        table := table1
        led := startLongRunningEffect now cmd sys.led },
     [mkAck (actionToString cmd.action) cmd.position (cmdIdOf cmd)], true)

/-- `CommandController::executeInstant`. -/
def executeInstant (now : Nat) (sys : Sys) (cmd : ParsedCommand) : Sys × List Event :=
  let cmdId := cmdIdOf cmd
  let actionStr := actionToString cmd.action
  let ackOrFail : LedState × Bool → Sys × List Event := fun res =>
    if res.2 then ({ sys with led := res.1 }, [mkAck actionStr cmd.position cmdId])
    else ({ sys with led := res.1 }, [mkError ("command_failed").data cmdId])
  match cmd.action with
  | .SHOW => ackOrFail (ledShow cmd.positionIndex sys.led)
  | .HIDE => ackOrFail (ledHide cmd.positionIndex sys.led)
  | .HIDE_ALL =>
    ({ sys with led := ledHideAll sys.led }, [mkAck actionStr charZero cmdId])
  | .FAIL => ackOrFail (ledFail cmd.positionIndex sys.led)
  | .BLINK => ackOrFail (ledBlink now cmd.positionIndex sys.led)
  | .STOP_BLINK => ackOrFail (ledStopBlink cmd.positionIndex sys.led)
  | .EXPAND_STEP => ackOrFail (expandStep cmd.positionIndex sys.led)
  | .CONTRACT_STEP => ackOrFail (contractStep cmd.positionIndex sys.led)
  | .EXPECT =>
    if sys.touchPresent then
      ({ sys with touch := setExpectDown cmd.positionIndex cmdId sys.touch },
       [mkAck actionStr cmd.position cmdId])
    else (sys, [mkError ("no_touch_controller").data cmdId])
  | .EXPECT_RELEASE =>
    if sys.touchPresent then
      ({ sys with touch := setExpectUp cmd.positionIndex cmdId sys.touch },
       [mkAck actionStr cmd.position cmdId])
    else (sys, [mkError ("no_touch_controller").data cmdId])
  | .RECALIBRATE =>
    if sys.touchPresent then
      let (bus1, ok) := recalibrate cmd.positionIndex sys.touch sys.bus
      if ok then
        ({ sys with bus := bus1 },
         [mkAck actionStr cmd.position cmdId, mkRecalibrated cmd.position cmdId])
      else ({ sys with bus := bus1 }, [mkError ("command_failed").data cmdId])
    else (sys, [mkError ("no_touch_controller").data cmdId])
  | .RECALIBRATE_ALL =>
    if sys.touchPresent then
      ({ sys with bus := recalibrateAll sys.touch sys.bus },
       [mkAck actionStr charZero cmdId, mkRecalibrated charZero cmdId])
    else (sys, [mkError ("no_touch_controller").data cmdId])
  | .SET_SENSITIVITY =>
    if sys.touchPresent then
      let (bus1, ok) := setSensitivity cmd.positionIndex cmd.extraValue sys.touch sys.bus
      if ok then ({ sys with bus := bus1 }, [mkAck actionStr cmd.position cmdId])
      else ({ sys with bus := bus1 }, [mkError ("command_failed").data cmdId])
    else (sys, [mkError ("no_touch_controller").data cmdId])
  | .SCAN =>
    if sys.touchPresent then
      (sys, [mkScanned (buildActiveSensorList sys.touch) cmdId])
    else (sys, [mkError ("no_touch_controller").data cmdId])
  | .VALUE =>
    if sys.touchPresent then
      match readSensorValue cmd.positionIndex sys.touch sys.bus with
      | some v => (sys, [mkValue cmd.position v cmdId])
      | none => (sys, [mkError ("sensor_inactive").data cmdId])
    else (sys, [mkError ("no_touch_controller").data cmdId])
  | .INFO => (sys, [mkInfo cmdId])
  | .PING => (sys, [mkAck actionStr charZero cmdId])
  | _ => (sys, [mkError ("unknown_action").data cmdId])

/-- `CommandController::executeCommand`. -/
def executeCommand (now : Nat) (sys : Sys) (cmd : ParsedCommand) : Sys × List Event :=
  if !cmd.valid then (sys, [])
  else
    let cmdId := cmdIdOf cmd
    if actionIsLongRunning cmd.action then
      let (sys1, evs, ok) := queueCommand now sys cmd
      if ok then (sys1, evs)
      else (sys1, evs ++ [mkBusy cmdId])
    else executeInstant now sys cmd

/-- `CommandController::tickCommand` — advance one occupied slot: poll the
owning subsystem's completion predicate, emit DONE and free the slot
when it is true. -/
def tickCommand (led : LedState) (qc : QueuedCommand) : QueuedCommand × List Event :=
  if !qc.active then (qc, [])
  else
    let cmdId := cmdIdOf qc.command
    match qc.command.action with
    | .SUCCESS =>
      if isAnimationComplete led qc.command.positionIndex then
        ({ qc with active := false },
         [mkDone (actionToString qc.command.action) qc.command.position cmdId])
      else (qc, [])
    | .CONTRACT =>
      if isContractComplete led qc.command.positionIndex then
        ({ qc with active := false },
         [mkDone (actionToString qc.command.action) qc.command.position cmdId])
      else (qc, [])
    | .SEQUENCE_COMPLETED =>
      if isSequenceCompletedAnimationComplete led then
        ({ qc with active := false },
         [mkDone (actionToString qc.command.action) charZero cmdId])
      else (qc, [])
    | .MENUE_CHANGE =>
      if isMenuChangeAnimationComplete led then
        ({ qc with active := false },
         [mkDone (actionToString qc.command.action) charZero cmdId])
      else (qc, [])
    | _ => ({ qc with active := false }, [])

/-- One completed input line as handled by
`CommandController::processCompletedLines`: parse it and, when parsing
succeeds, execute the command. -/
def processLine (now : Nat) (line : List Char) (sys : Sys) : Sys × List Event :=
  match parseLineM line with
  | (none, evs) => (sys, evs)
  | (some cmd, evs) =>
    let (sys1, evs1) := executeCommand now sys cmd
    (sys1, evs ++ evs1)

-- ===========================================================================
-- C1: bus-error handling during periodic sampling (code bug)
-- ===========================================================================

/-- A bus on which every register read fails. -/
def busAllFail : Bus :=
  { regs := fun _ _ => none, writeOk := fun _ _ => true, writes := [] }

/-- One active, currently-untouched channel (index 0 / letter A). -/
def oneQuietChannel : TouchState :=
  { sensors := fun i =>
      if i = 0 then
        { active := true, currentTouched := false, debouncedTouched := false,
          lastReportedTouched := false, lastChangeTime := 0 }
      else inactiveSensor
    expectDown := fun _ => inactiveExpect
    expectUp := fun _ => inactiveExpect }

/-- The public operations of `LedController`, including the per-tick
`update`, with the `millis()` samples made explicit. -/
inductive LedOp where
  | opShow (p : Nat)
  | opHide (p : Nat)
  | opHideAll
  | opSuccess (now p : Nat)
  | opFail (p : Nat)
  | opContract (now p : Nat)
  | opBlink (now p : Nat)
  | opStopBlink (p : Nat)
  | opExpandStep (p : Nat)
  | opContractStep (p : Nat)
  | opStartSeq (now : Nat)
  | opStartMenu (r g b range now : Nat)
  | opTick (now : Nat)

def applyLedOp (s : LedState) (op : LedOp) : LedState :=
  match op with
  | .opShow p => (ledShow p s).1
  | .opHide p => (ledHide p s).1
  | .opHideAll => ledHideAll s
  | .opSuccess now p => (ledSuccess now p s).1
  | .opFail p => (ledFail p s).1
  | .opContract now p => (ledContract now p s).1
  | .opBlink now p => (ledBlink now p s).1
  | .opStopBlink p => (ledStopBlink p s).1
  | .opExpandStep p => (expandStep p s).1
  | .opContractStep p => (contractStep p s).1
  | .opStartSeq now => startSequenceCompletedAnimation now s
  | .opStartMenu r g b range now => startMenuChangeAnimation r g b range now s
  | .opTick now => ledUpdate now s

def runLedOps (ops : List LedOp) (s : LedState) : LedState :=
  ops.foldl applyLedOp s

-- ===========================================================================
-- Per-position effect of one animation tick (framing for the fold in
-- `LedController::update`)
-- ===========================================================================

/-- The effect of `updateAnimation` on its own position's data. -/
def posAnimData (now : Nat) (pd : PositionData) : PositionData :=
  if sub32 now pd.lastAnimationTime < ANIMATION_STEP_MS then pd
  else if (pd.animationStep + 1) % 256 ≥ SUCCESS_EXPANSION_RADIUS then
    { pd with
      animationStep := SUCCESS_EXPANSION_RADIUS
      lastAnimationTime := now
      state := .EXPANDED }
  else
    { pd with
      animationStep := (pd.animationStep + 1) % 256
      lastAnimationTime := now }

/-- The effect of `updateContractAnimation` on its own position's data. -/
def posContractData (now : Nat) (pd : PositionData) : PositionData :=
  if sub32 now pd.lastAnimationTime < ANIMATION_STEP_MS then pd
  else
    let pd1 :=
      if pd.animationStep > 0 then
        { pd with
          animationStep := pd.animationStep - 1
          lastAnimationTime := now }
      else { pd with lastAnimationTime := now }
    if pd1.animationStep = 0 then { pd1 with state := .SHOWN } else pd1

/-- Position-data effect of the animation loop in `LedController::update`. -/
def posDispatchData (now : Nat) (pd : PositionData) : PositionData :=
  if pd.state = .ANIMATING then posAnimData now pd
  else if pd.state = .CONTRACTING then posContractData now pd
  else pd

/-- Position-data effect of `updateBlinking`. -/
def posBlinkData (now : Nat) (pd : PositionData) : PositionData :=
  if pd.state = .BLINKING then
    if sub32 now pd.lastAnimationTime ≥ BLINK_INTERVAL_MS then
      { pd with blinkOn := !pd.blinkOn, lastAnimationTime := now }
    else pd
  else pd

-- ===========================================================================
-- C3: the success animation reaches EXPANDED in exactly five step intervals
-- ===========================================================================

/-- `k` animation ticks at exact step-interval spacing after time `t0`. -/
def ledTicks (t0 : Nat) (k : Nat) (s : LedState) : LedState :=
  match k with
  | 0 => s
  | Nat.succ k => ledUpdate (t0 + ANIMATION_STEP_MS * (k + 1)) (ledTicks t0 k s)

-- ===========================================================================
-- C9: the palette-sweep (menu-change) animation
-- ===========================================================================

/-- `k` menu-animation updates at minimal-interval spacing after `t0`
(the animation's own step duration is `MENU_CHANGE_STEP_MS = 1`). -/
def menuTicks (t0 : Nat) (k : Nat) (s : LedState) : LedState :=
  match k with
  | 0 => s
  | Nat.succ k => menuTick (t0 + (k + 1) * MENU_CHANGE_STEP_MS) (menuTicks t0 k s)

-- ===========================================================================
-- C6: one-shot touch watches
-- ===========================================================================

/-- The per-channel result of one `processDebounce` pass: updated sensor
state, updated watches and the events queued for that channel. -/
def chanResult (now : Nat) (ts : TouchState) (i : Nat) :
    TouchSensorState × ExpectState × ExpectState × List Event :=
  debounceChannel now (indexToLetter i) (ts.sensors i) (ts.expectDown i) (ts.expectUp i)

-- ===========================================================================
-- C5: debounce dwell behaviour
-- ===========================================================================

/-- Loop body of `TouchController::pollSensors` restricted to one channel,
with the outcome of the raw read (`readRawTouch(address) != 0`, i.e. the
`bool touched`) supplied as input. -/
def pollChannel (now : Nat) (touched : Bool) (s : TouchSensorState) : TouchSensorState :=
  if !s.active then s
  else if touched ≠ s.currentTouched then
    { s with
      currentTouched := touched
      lastChangeTime := if touched ≠ s.debouncedTouched then now else s.lastChangeTime }
  else s

/-- One full tick as seen by a single channel: sample (the `pollSensors`
pass) then debounce (the `processDebounce` pass). -/
def channelStep (letter : Char) (st : TouchSensorState × ExpectState × ExpectState)
    (sample : Nat × Bool) :
    (TouchSensorState × ExpectState × ExpectState) × List Event :=
  let s1 := pollChannel sample.1 sample.2 st.1
  let r := debounceChannel sample.1 letter s1 st.2.1 st.2.2
  ((r.1, r.2.1, r.2.2.1), r.2.2.2)

/-- Run a channel through a list of `(time, raw)` samples, one tick each. -/
def channelRun (letter : Char) :
    List (Nat × Bool) → (TouchSensorState × ExpectState × ExpectState) →
    (TouchSensorState × ExpectState × ExpectState) × List Event
  | [], st => (st, [])
  | sample :: rest, st =>
    let r1 := channelStep letter st sample
    let r2 := channelRun letter rest r1.1
    (r2.1, r1.2 ++ r2.2)

/-- The oscillation premiss of the spec: at every sample, whenever the raw
value diverges from the initial debounced value `d0` and the channel had
already diverged (its "current" already equals the sample's value), the
time since the recorded divergence is still below the direction-dependent
dwell. -/
def oscillatoryB (d0 : Bool) (letter : Char) :
    List (Nat × Bool) → (TouchSensorState × ExpectState × ExpectState) → Bool
  | [], _ => true
  | (t, b) :: rest, st =>
    ((b == d0) || (st.1.currentTouched != b) ||
      decide (sub32 t st.1.lastChangeTime <
        (if b then TOUCH_DEBOUNCE_PRESS_MS else TOUCH_DEBOUNCE_RELEASE_MS))) &&
    oscillatoryB d0 letter rest (channelStep letter st (t, b)).1

theorem sub32_add_right (x d : Nat) (h : d < 4294967296) : sub32 (x + d) x = d := by
  unfold sub32; omega

theorem sub32_self (x : Nat) : sub32 x x = 0 := by
  unfold sub32; omega

theorem sub32_of_le (a b : Nat) (h1 : b ≤ a) (h2 : a - b < 4294967296) :
    sub32 a b = a - b := by
  unfold sub32; omega

theorem natChars_all_digits (n : Nat) : ∀ c ∈ natChars n, ∃ d, d < 10 ∧ c = digitChar d := by
  induction n using Nat.strong_induction_on with
  | _ n ih =>
    intro c hc
    rw [natChars] at hc
    by_cases h : n < 10
    · simp [h] at hc
      exact ⟨n, h, hc⟩
    · simp [h, List.mem_append] at hc
      rcases hc with hc | hc
      · exact ih (n / 10) (Nat.div_lt_self (by omega) (by omega)) c hc
      · exact ⟨n % 10, Nat.mod_lt _ (by omega), hc⟩

theorem hash_not_mem_natChars (n : Nat) : ('#' : Char) ∉ natChars n := by
  intro hmem
  obtain ⟨d, hd, heq⟩ := natChars_all_digits n _ hmem
  have : ∀ d < 10, digitChar d ≠ ('#' : Char) := by decide
  exact this d hd heq.symm

-- ===========================================================================
-- Basic lemmas about the LED state operations
-- ===========================================================================

theorem positions_setStripPixel (s : LedState) (strip : StripId) (idx : Nat) (c : Color) :
    (setStripPixel s strip idx c).positions = s.positions := by
  cases strip <;> rfl

theorem positions_setLed (s : LedState) (strip : StripId) (i : Int) (c : Color) :
    (setLed s strip i c).positions = s.positions := by
  unfold setLed
  split
  · rfl
  · split
    · exact positions_setStripPixel ..
    · rfl

theorem positions_setPositionData (s : LedState) (p : Nat) (pd : PositionData) (q : Nat) :
    (setPositionData s p pd).positions q = if q = p then pd else s.positions q := rfl

theorem getStripPixel_setPositionData (s : LedState) (p : Nat) (pd : PositionData)
    (strip : StripId) (idx : Nat) :
    getStripPixel (setPositionData s p pd) strip idx = getStripPixel s strip idx := by
  cases strip <;> rfl

theorem getStripPixel_setLed_same (s : LedState) (strip : StripId) (i : Int) (c : Color)
    (idx : Nat) :
    getStripPixel (setLed s strip i c) strip idx =
      if i = (idx : Int) ∧ i < (getStripLength strip : Int) then c
      else getStripPixel s strip idx := by
  unfold setLed
  by_cases h0 : i < 0
  · rw [if_pos h0, if_neg (by omega)]
  · rw [if_neg h0]
    by_cases h1 : i < (getStripLength strip : Int)
    · rw [if_pos h1]
      cases strip <;>
        · show (if idx = i.toNat then c else _) = _
          by_cases h2 : idx = i.toNat
          · rw [if_pos h2, if_pos (by constructor <;> omega)]
          · rw [if_neg h2, if_neg (by intro hc; omega)]
            rfl
    · rw [if_neg h1, if_neg (by intro hc; omega)]

/-- The pixel-clearing loop in `clearExpandedRegion`: a pixel of the
position's strip ends up off exactly when some traversed offset reaches
it inside the strip; other pixels keep their prior color. -/
theorem clearLoop_pixel (m : StripId × Nat) (offs : List Int) (s : LedState) (idx : Nat) :
    getStripPixel
      (offs.foldl
        (fun st o =>
          if 0 ≤ (m.2 : Int) + o ∧ (m.2 : Int) + o < (getStripLength m.1 : Int) then
            setLed st m.1 ((m.2 : Int) + o) COLOR_OFF
          else st)
        s) m.1 idx =
    if (∃ o, o ∈ offs ∧ (m.2 : Int) + o = (idx : Int)) ∧
        (idx : Int) < (getStripLength m.1 : Int)
    then COLOR_OFF else getStripPixel s m.1 idx := by
  induction offs generalizing s with
  | nil => simp
  | cons o rest ih =>
    rw [List.foldl_cons, ih]
    by_cases hrest : (∃ o', o' ∈ rest ∧ (m.2 : Int) + o' = (idx : Int)) ∧
        (idx : Int) < (getStripLength m.1 : Int)
    · have hcons : (∃ o', o' ∈ o :: rest ∧ (m.2 : Int) + o' = (idx : Int)) ∧
          (idx : Int) < (getStripLength m.1 : Int) := by
        obtain ⟨⟨o', ho', heq⟩, hlen⟩ := hrest
        exact ⟨⟨o', List.mem_cons_of_mem _ ho', heq⟩, hlen⟩
      rw [if_pos hrest, if_pos hcons]
    · rw [if_neg hrest]
      by_cases hhit : (m.2 : Int) + o = (idx : Int) ∧
          (idx : Int) < (getStripLength m.1 : Int)
      · have hcons : (∃ o', o' ∈ o :: rest ∧ (m.2 : Int) + o' = (idx : Int)) ∧
            (idx : Int) < (getStripLength m.1 : Int) :=
          ⟨⟨o, List.mem_cons_self o rest, hhit.1⟩, hhit.2⟩
        have hguard : 0 ≤ (m.2 : Int) + o ∧ (m.2 : Int) + o < (getStripLength m.1 : Int) := by
          constructor <;> omega
        have hsame : (m.2 : Int) + o = (idx : Int) ∧
            (m.2 : Int) + o < (getStripLength m.1 : Int) := by
          constructor <;> omega
        rw [if_pos hcons, if_pos hguard, getStripPixel_setLed_same, if_pos hsame]
      · have hcons : ¬ ((∃ o', o' ∈ o :: rest ∧ (m.2 : Int) + o' = (idx : Int)) ∧
            (idx : Int) < (getStripLength m.1 : Int)) := by
          rintro ⟨⟨o', ho', heq⟩, hlen⟩
          rcases List.mem_cons.mp ho' with h | h
          · exact hhit ⟨h ▸ heq, hlen⟩
          · exact hrest ⟨⟨o', h, heq⟩, hlen⟩
        rw [if_neg hcons]
        by_cases hguard : 0 ≤ (m.2 : Int) + o ∧ (m.2 : Int) + o < (getStripLength m.1 : Int)
        · have hns : ¬ ((m.2 : Int) + o = (idx : Int) ∧
              (m.2 : Int) + o < (getStripLength m.1 : Int)) := by
            rintro ⟨h1, h2⟩
            exact hhit ⟨h1, by omega⟩
          rw [if_pos hguard, getStripPixel_setLed_same, if_neg hns]
        · rw [if_neg hguard]

theorem mem_offsetRange (r : Nat) (o : Int) :
    o ∈ offsetRange r ↔ -(r : Int) ≤ o ∧ o ≤ (r : Int) := by
  simp only [offsetRange, List.mem_map, List.mem_range]
  constructor
  · rintro ⟨k, hk, rfl⟩
    constructor <;> omega
  · intro h
    exact ⟨(o + (r : Int)).toNat, by omega, by omega⟩

/-- `clearExpandedRegion` turns off every strip pixel within the cleared
radius of the position's center. -/
theorem clearExpandedRegion_pixel_off (s : LedState) (p : Nat) (m : StripId × Nat)
    (idx : Nat)
    (hlo : (m.2 : Int) - (max (s.positions p).expansionRadius SUCCESS_EXPANSION_RADIUS : Nat)
      ≤ (idx : Int))
    (hhi : (idx : Int) ≤ (m.2 : Int) +
      (max (s.positions p).expansionRadius SUCCESS_EXPANSION_RADIUS : Nat))
    (hlen : idx < getStripLength m.1) :
    getStripPixel (clearExpandedRegion s p m) m.1 idx = COLOR_OFF := by
  unfold clearExpandedRegion
  rw [getStripPixel_setPositionData, clearLoop_pixel, if_pos]
  refine ⟨⟨(idx : Int) - (m.2 : Int), ?_, by ring⟩, by exact_mod_cast hlen⟩
  rw [mem_offsetRange]
  constructor <;> omega

theorem positions_clearExpandedRegion (s : LedState) (p : Nat) (m : StripId × Nat) (q : Nat) :
    (clearExpandedRegion s p m).positions q =
      if q = p then { (s.positions p) with expansionRadius := 0 } else s.positions q := by
  unfold clearExpandedRegion
  have hfold : ∀ (offs : List Int) (st : LedState),
      (offs.foldl
        (fun st o =>
          if 0 ≤ (m.2 : Int) + o ∧ (m.2 : Int) + o < (getStripLength m.1 : Int) then
            setLed st m.1 ((m.2 : Int) + o) COLOR_OFF
          else st)
        st).positions = st.positions := by
    intro offs
    induction offs with
    | nil => intro st; rfl
    | cons o rest ih =>
      intro st
      rw [List.foldl_cons, ih]
      split
      · rw [positions_setLed]
      · rfl
  rw [positions_setPositionData, hfold]

/-- Mapping facts used throughout: every valid position has a mapping whose
center stays at least the maximum expansion radius away from both strip
ends. -/
theorem mapping_bounds : ∀ p < NUM_POSITIONS, ∀ m, getMapping p = some m →
    SUCCESS_EXPANSION_RADIUS ≤ m.2 ∧
    m.2 + SUCCESS_EXPANSION_RADIUS < getStripLength m.1 := by decide

theorem getMapping_isSome : ∀ p < NUM_POSITIONS, (getMapping p).isSome = true := by decide

theorem positions_ledHide (p : Nat) (s : LedState) (m : StripId × Nat)
    (hp : p < NUM_POSITIONS) (hm : getMapping p = some m) (q : Nat) :
    ((ledHide p s).1.positions q) =
      if q = p then
        { ((clearExpandedRegion s p m).positions p) with
          state := .OFF, animationStep := 0, blinkOn := false, expansionRadius := 0 }
      else (clearExpandedRegion s p m).positions q := by
  unfold ledHide
  rw [if_neg (by omega), hm]
  exact positions_setPositionData ..

theorem getStripPixel_ledHide (p : Nat) (s : LedState) (m : StripId × Nat)
    (hp : p < NUM_POSITIONS) (hm : getMapping p = some m) (strip : StripId) (idx : Nat) :
    getStripPixel (ledHide p s).1 strip idx =
      getStripPixel (clearExpandedRegion s p m) strip idx := by
  unfold ledHide
  rw [if_neg (by omega), hm]
  cases strip <;> rfl

-- ===========================================================================
-- C4: the `#id` suffix of formatted events
-- ===========================================================================

theorem hash_not_mem_pair (p : Char) (hp : p ≠ '#') : ('#' : Char) ∉ [' ', p] := by
  intro h
  rcases List.mem_cons.mp h with h | h
  · exact absurd h (by decide)
  · exact hp (List.mem_singleton.mp h).symm

theorem hash_not_mem_posPart (p : Char) (hp : p ≠ '#') (c : Prop) [Decidable c] :
    ('#' : Char) ∉ (if c then [' ', p] else []) := by
  split
  · exact hash_not_mem_pair p hp
  · exact List.not_mem_nil _

/-- C4 — the formatted wire message ends with the `' #<id>'` suffix
(followed by the terminating newline) iff the event's id is not the
`COMMAND_ID_NONE` sentinel; with the sentinel id no `'#'` appears in
the message at all.  The hypotheses delimit the events the firmware can
build: reason tokens, action names, payloads and position chars never
contain `'#'`, and the fixed field widths (`action[16]`, `extra[52]`)
keep every message within the 96-byte buffer, so `snprintf` never
truncates. -/
theorem event_id_suffix (e : Event)
    (hA : ('#' : Char) ∉ e.action) (hE : ('#' : Char) ∉ e.extra)
    (hP : e.position ≠ '#')
    (hAl : e.action.length ≤ 15) (hEl : e.extra.length ≤ 51) :
    (List.IsSuffix ([' ', '#'] ++ natChars e.commandId ++ ['\n']) (formatEvent e) ↔
      e.commandId ≠ COMMAND_ID_NONE) ∧
    (e.commandId = COMMAND_ID_NONE → ('#' : Char) ∉ formatEvent e) := by
  have hnl : ('#' : Char) ∉ ['\n'] := by decide
  obtain ⟨ty, act, pos, id, ext⟩ := e
  simp only at hA hE hP hAl hEl
  have hbody : ('#' : Char) ∉ formatBody ⟨ty, act, pos, id, ext⟩ := by
    unfold formatBody
    cases ty <;> dsimp only
    · intro hmem
      rcases List.mem_append.mp hmem with h | h
      · rcases List.mem_append.mp h with h | h
        · exact absurd h (by decide)
        · exact hA h
      · exact hash_not_mem_posPart pos hP _ h
    · intro hmem
      rcases List.mem_append.mp hmem with h | h
      · rcases List.mem_append.mp h with h | h
        · exact absurd h (by decide)
        · exact hA h
      · exact hash_not_mem_posPart pos hP _ h
    · intro hmem
      rcases List.mem_append.mp hmem with h | h
      · exact absurd h (by decide)
      · exact hE h
    · intro hmem
      exact absurd hmem (by decide)
    · intro hmem
      rcases List.mem_append.mp hmem with h | h
      · exact absurd h (by decide)
      · exact hP (List.mem_singleton.mp h).symm
    · intro hmem
      rcases List.mem_append.mp hmem with h | h
      · exact absurd h (by decide)
      · exact hP (List.mem_singleton.mp h).symm
    · intro hmem
      rcases List.mem_append.mp hmem with h | h
      · rcases List.mem_append.mp h with h | h
        · exact absurd h (by decide)
        · exact hE h
      · exact absurd h (by decide)
    · split
      · intro hmem
        exact absurd hmem (by decide)
      · intro hmem
        rcases List.mem_append.mp hmem with h | h
        · exact absurd h (by decide)
        · exact hP (List.mem_singleton.mp h).symm
    · intro hmem
      exact absurd hmem (by decide)
    · intro hmem
      rcases List.mem_append.mp hmem with h | h
      · rcases List.mem_append.mp h with h | h
        · exact absurd h (by decide)
        · rcases List.mem_cons.mp h with h | h
          · exact hP h.symm
          · exact absurd h (by decide)
      · exact hE h
  have hfree : id = COMMAND_ID_NONE →
      ('#' : Char) ∉ formatEvent ⟨ty, act, pos, id, ext⟩ := by
    intro hnone
    unfold formatEvent
    have hidneg : ¬ (id ≠ COMMAND_ID_NONE) := fun hc => hc hnone
    rw [if_neg hidneg]
    intro hmem
    rcases List.mem_append.mp hmem with hmem | hmem
    swap
    · exact hnl hmem
    rcases List.mem_append.mp hmem with hmem | hmem
    swap
    · exact List.not_mem_nil _ hmem
    exact hbody hmem
  constructor
  · constructor
    · intro hsuf hid
      exact hfree hid (hsuf.subset (by simp))
    · intro hne
      refine ⟨formatBody ⟨ty, act, pos, id, ext⟩, ?_⟩
      unfold formatEvent
      have hif : (if (id ≠ COMMAND_ID_NONE) then ([' ', '#'] ++ natChars id)
          else ([] : List Char)) = [' ', '#'] ++ natChars id := if_pos hne
      rw [hif]
      simp [List.append_assoc]
  · exact hfree

/-- C1 — evaluation of the failing input: channel A is active and not
touched, and the I2C read of the sensor-input-status register fails
during the sampling cycle.  `readRawTouch` returns `-1`, but
`pollSensors` assigns that `int8_t` to a `bool`, so the error converts
to `true` and the cycle *changes* "current" from not-touched to touched
(synthesizing a phantom press), contradicting the specified behaviour
that an I/O failure leaves "current" unchanged. -/
theorem bus_error_changes_current :
    (oneQuietChannel.sensors 0).currentTouched = false ∧
    (((pollSensors 1000 oneQuietChannel busAllFail).1.sensors 0).currentTouched = true) ∧
    (((pollSensors 1000 oneQuietChannel busAllFail).1.sensors 0).lastChangeTime = 1000) := by
  refine ⟨rfl, ?_, ?_⟩ <;> decide

-- ===========================================================================
-- C2: admission control for long-running commands
-- ===========================================================================

theorem fillFirstFreeSlot_none_of_full (newQC : QueuedCommand) :
    ∀ table : List QueuedCommand, isQueueFull table = true →
      fillFirstFreeSlot newQC table = none := by
  intro table
  induction table with
  | nil => intro _; rfl
  | cons q rest ih =>
    intro hfull
    unfold isQueueFull at hfull
    rw [List.all_cons, Bool.and_eq_true] at hfull
    unfold fillFirstFreeSlot
    rw [if_pos hfull.1]
    rw [ih hfull.2]
    rfl

theorem fillFirstFreeSlot_spec (newQC : QueuedCommand) :
    ∀ table : List QueuedCommand, isQueueFull table = false →
      ∃ t', fillFirstFreeSlot newQC table = some t' ∧ newQC ∈ t' ∧
        ∀ q ∈ table, q.active = true → q ∈ t' := by
  intro table
  induction table with
  | nil => intro hfull; cases hfull
  | cons q rest ih =>
    intro hfull
    unfold isQueueFull at hfull
    rw [List.all_cons] at hfull
    unfold fillFirstFreeSlot
    by_cases hq : q.active = true
    · have hrest : isQueueFull rest = false := by
        unfold isQueueFull
        rw [hq, Bool.true_and] at hfull
        exact hfull
      obtain ⟨t'', hfill, hmem, hpres⟩ := ih hrest
      refine ⟨q :: t'', ?_, List.mem_cons_of_mem _ hmem, ?_⟩
      · rw [if_pos hq, hfill]
        rfl
      · intro q' hq' hact
        rcases List.mem_cons.mp hq' with rfl | hq'
        · exact List.mem_cons_self _ _
        · exact List.mem_cons_of_mem _ (hpres q' hq' hact)
    · refine ⟨newQC :: rest, ?_, List.mem_cons_self _ _, ?_⟩
      · rw [if_neg hq]
      · intro q' hq' hact
        rcases List.mem_cons.mp hq' with rfl | hq'
        · exact absurd hact hq
        · exact List.mem_cons_of_mem _ hq'

/-- C2 — admission control for parsed long-running commands: with a full
slot table, execution emits exactly one BUSY event (not an ERR)
carrying the command's correlation id and leaves the whole system state
(table, LED, touch, bus) unchanged; with a free slot, the ACK is
emitted immediately, the LED side effect is started and the new slot is
occupied while every previously admitted (active) slot entry is
preserved; and an admitted command completes with a DONE carrying its
id as soon as its completion predicate is true. -/
theorem long_running_admission (now : Nat) (sys : Sys) (cmd : ParsedCommand)
    (hv : cmd.valid = true) (hlr : actionIsLongRunning cmd.action = true) :
    (isQueueFull sys.table = true →
      executeCommand now sys cmd = (sys, [mkBusy (cmdIdOf cmd)])) ∧
    (isQueueFull sys.table = false →
      (executeCommand now sys cmd).2 =
        [mkAck (actionToString cmd.action) cmd.position (cmdIdOf cmd)] ∧
      (executeCommand now sys cmd).1.led = startLongRunningEffect now cmd sys.led ∧
      (executeCommand now sys cmd).1.touch = sys.touch ∧
      ({ command := cmd, active := true, startTime := now, state := 0 } : QueuedCommand)
        ∈ (executeCommand now sys cmd).1.table ∧
      (∀ q ∈ sys.table, q.active = true → q ∈ (executeCommand now sys cmd).1.table)) ∧
    (∀ (led : LedState) (qc : QueuedCommand), qc.active = true →
      (qc.command.action = CommandAction.SUCCESS →
        isAnimationComplete led qc.command.positionIndex = true →
        tickCommand led qc = ({ qc with active := false },
          [mkDone (actionToString qc.command.action) qc.command.position
            (cmdIdOf qc.command)])) ∧
      (qc.command.action = CommandAction.CONTRACT →
        isContractComplete led qc.command.positionIndex = true →
        tickCommand led qc = ({ qc with active := false },
          [mkDone (actionToString qc.command.action) qc.command.position
            (cmdIdOf qc.command)])) ∧
      (qc.command.action = CommandAction.SEQUENCE_COMPLETED →
        isSequenceCompletedAnimationComplete led = true →
        tickCommand led qc = ({ qc with active := false },
          [mkDone (actionToString qc.command.action) charZero (cmdIdOf qc.command)])) ∧
      (qc.command.action = CommandAction.MENUE_CHANGE →
        isMenuChangeAnimationComplete led = true →
        tickCommand led qc = ({ qc with active := false },
          [mkDone (actionToString qc.command.action) charZero (cmdIdOf qc.command)]))) := by
  have hvcond : ¬ ((!cmd.valid) = true) := by
    rw [hv]
    decide
  refine ⟨?_, ?_, ?_⟩
  · intro hfull
    unfold executeCommand
    rw [if_neg hvcond, if_pos hlr]
    unfold queueCommand
    dsimp only
    rw [fillFirstFreeSlot_none_of_full _ _ hfull]
    rfl
  · intro hnotfull
    obtain ⟨t', hfill, hmem, hpres⟩ := fillFirstFreeSlot_spec
      { command := cmd, active := true, startTime := now, state := 0 } sys.table hnotfull
    unfold executeCommand
    rw [if_neg hvcond, if_pos hlr]
    unfold queueCommand
    dsimp only
    rw [hfill]
    exact ⟨rfl, rfl, rfl, hmem, hpres⟩
  · intro led qc hact
    have hcond : ¬ ((!qc.active) = true) := by
      rw [hact]
      decide
    refine ⟨?_, ?_, ?_, ?_⟩ <;>
      (intro haction hdone
       unfold tickCommand
       rw [if_neg hcond, haction]
       dsimp only
       rw [hdone]
       rfl)

/-- Functional preservation through a left fold: if each step leaves the
observation `g` unchanged, so does the whole fold. -/
theorem foldl_preserves {α β γ : Type _} (f : α → β → α) (g : α → γ)
    (h : ∀ a b, g (f a b) = g a) (L : List β) (a : α) : g (L.foldl f a) = g a := by
  induction L generalizing a with
  | nil => rfl
  | cons b L ih => rw [List.foldl_cons, ih, h]

theorem positions_renderExpandPair (m : StripId × Nat) (r : Nat) (st : LedState) :
    (renderExpandPair m r st).positions = st.positions := by
  unfold renderExpandPair
  dsimp only
  split_ifs <;> simp only [positions_setLed]

theorem positions_renderLoop (m : StripId × Nat) (n : Nat) (st : LedState) :
    ((List.range n).foldl (fun st k => renderExpandPair m (k + 1) st) st).positions =
      st.positions :=
  foldl_preserves _ _ (fun a b => positions_renderExpandPair m (b + 1) a) _ _

theorem radius_clearExpandedRegion (s : LedState) (p : Nat) (m : StripId × Nat) (q : Nat) :
    ((clearExpandedRegion s p m).positions q).expansionRadius =
      if q = p then 0 else (s.positions q).expansionRadius := by
  rw [positions_clearExpandedRegion]
  split <;> rfl

theorem radius_setPositionData (s : LedState) (p : Nat) (pd : PositionData) (q : Nat) :
    ((setPositionData s p pd).positions q).expansionRadius =
      if q = p then pd.expansionRadius else (s.positions q).expansionRadius := by
  rw [positions_setPositionData]
  split <;> rfl

theorem radius_updateAnimation (i now : Nat) (s : LedState) (q : Nat) :
    ((updateAnimation i now s).positions q).expansionRadius =
      (s.positions q).expansionRadius := by
  unfold updateAnimation
  dsimp only
  split
  · rfl
  · split
    · rfl
    · rw [positions_renderLoop, positions_setLed, radius_setPositionData]
      split
      · next h => subst h; rfl
      · rfl

theorem radius_updateContractAnimation (i now : Nat) (s : LedState) (q : Nat) :
    ((updateContractAnimation i now s).positions q).expansionRadius =
      (s.positions q).expansionRadius := by
  unfold updateContractAnimation
  dsimp only
  split
  · rfl
  · split
    · rfl
    · split_ifs <;>
        simp only [positions_setLed, positions_setPositionData] <;>
        split_ifs <;>
        first
          | rfl
          | (rename_i hqi _; subst hqi; rfl)
          | (rename_i hqi; subst hqi; rfl)

theorem radius_animStepAt (now : Nat) (s : LedState) (i q : Nat) :
    ((animStepAt now s i).positions q).expansionRadius =
      (s.positions q).expansionRadius := by
  unfold animStepAt
  split
  · exact radius_updateAnimation i now s q
  · split
    · exact radius_updateContractAnimation i now s q
    · rfl

theorem radius_blinkStepAt (now : Nat) (s : LedState) (i q : Nat) :
    ((blinkStepAt now s i).positions q).expansionRadius =
      (s.positions q).expansionRadius := by
  unfold blinkStepAt
  dsimp only
  split_ifs <;> try rfl
  all_goals
    split <;>
      first
        | (rw [radius_setPositionData]; split
           · next h => subst h; rfl
           · rfl)
        | (show (((setLed (setPositionData s i _) _ _ _).positions q).expansionRadius) = _
           rw [positions_setLed, radius_setPositionData]
           split
           · next h => subst h; rfl
           · rfl)

theorem radius_updateSequenceCompletedAnimation (now : Nat) (s : LedState) (q : Nat) :
    ((updateSequenceCompletedAnimation now s).positions q).expansionRadius =
      (s.positions q).expansionRadius := by
  unfold updateSequenceCompletedAnimation
  dsimp only
  split_ifs <;> rfl

theorem positions_updateMenuChangeAnimation (now : Nat) (s : LedState) :
    (updateMenuChangeAnimation now s).positions = s.positions := by
  unfold updateMenuChangeAnimation
  dsimp only
  split_ifs <;> cases s <;> rfl

theorem radius_ledUpdate (now : Nat) (s : LedState) (q : Nat) :
    ((ledUpdate now s).positions q).expansionRadius =
      (s.positions q).expansionRadius := by
  unfold ledUpdate
  dsimp only
  have h1 : ∀ (L : List Nat) (x : LedState),
      (((L.foldl (animStepAt now) x).positions q).expansionRadius) =
        ((x.positions q).expansionRadius) := by
    intro L
    induction L with
    | nil => intro x; rfl
    | cons i L ih =>
      intro x
      rw [List.foldl_cons, ih, radius_animStepAt]
  have h2 : ∀ (L : List Nat) (x : LedState),
      (((L.foldl (blinkStepAt now) x).positions q).expansionRadius) =
        ((x.positions q).expansionRadius) := by
    intro L
    induction L with
    | nil => intro x; rfl
    | cons i L ih =>
      intro x
      rw [List.foldl_cons, ih, radius_blinkStepAt]
  split <;>
    (first
      | (split <;> (first
          | (split <;>
              simp only [radius_updateSequenceCompletedAnimation,
                positions_updateMenuChangeAnimation, h1, h2])
          | simp only [radius_updateSequenceCompletedAnimation,
              positions_updateMenuChangeAnimation, h1, h2]))
      | simp only [radius_updateSequenceCompletedAnimation,
          positions_updateMenuChangeAnimation, h1, h2])

set_option maxRecDepth 4096 in
/-- Each LED controller operation keeps every expansion-radius counter
within `[0, SUCCESS_EXPANSION_RADIUS]`. -/
theorem radius_applyLedOp (op : LedOp) (s : LedState)
    (h : ∀ q, (s.positions q).expansionRadius ≤ SUCCESS_EXPANSION_RADIUS) (q : Nat) :
    ((applyLedOp s op).positions q).expansionRadius ≤ SUCCESS_EXPANSION_RADIUS := by
  have hq5 : (0 : Nat) ≤ SUCCESS_EXPANSION_RADIUS := by decide
  cases op with
  | opShow p =>
    show (((ledShow p s).1.positions q).expansionRadius) ≤ _
    unfold ledShow
    dsimp only
    split
    · exact h q
    · split
      · exact h q
      · rw [positions_setLed, radius_setPositionData]
        split
        · exact hq5
        · split
          · rw [radius_clearExpandedRegion]
            split
            · exact hq5
            · exact h q
          · exact h q
  | opHide p =>
    show (((ledHide p s).1.positions q).expansionRadius) ≤ _
    unfold ledHide
    dsimp only
    split
    · exact h q
    · split
      · exact h q
      · rw [radius_setPositionData]
        split
        · exact hq5
        · rw [radius_clearExpandedRegion]
          split
          · exact hq5
          · exact h q
  | opHideAll =>
    show ((ledHideAll s).positions q).expansionRadius ≤ _
    unfold ledHideAll
    exact hq5
  | opSuccess now p =>
    show (((ledSuccess now p s).1.positions q).expansionRadius) ≤ _
    unfold ledSuccess
    dsimp only
    split
    · exact h q
    · split
      · exact h q
      · rw [positions_setLed, radius_setPositionData]
        split
        · dsimp only
          split
          · rw [radius_clearExpandedRegion, if_pos rfl]
            exact hq5
          · split
            · rw [positions_setLed]; exact h p
            · exact h p
        · split
          · rw [radius_clearExpandedRegion]
            split
            · exact hq5
            · exact h q
          · split
            · rw [positions_setLed]; exact h q
            · exact h q
  | opFail p =>
    show (((ledFail p s).1.positions q).expansionRadius) ≤ _
    unfold ledFail
    dsimp only
    split
    · exact h q
    · split
      · exact h q
      · rw [positions_setLed, radius_setPositionData]
        split
        · dsimp only
          split
          · rw [radius_clearExpandedRegion, if_pos rfl]
            exact hq5
          · exact h p
        · split
          · rw [radius_clearExpandedRegion]
            split
            · exact hq5
            · exact h q
          · exact h q
  | opContract now p =>
    show (((ledContract now p s).1.positions q).expansionRadius) ≤ _
    unfold ledContract
    dsimp only
    split
    · exact h q
    · split
      · exact h q
      · split
        · rw [radius_setPositionData]
          split
          · exact h p
          · exact h q
        · rw [positions_setLed, radius_setPositionData]
          split
          · exact h p
          · exact h q
  | opBlink now p =>
    show (((ledBlink now p s).1.positions q).expansionRadius) ≤ _
    unfold ledBlink
    dsimp only
    split
    · exact h q
    · split
      · exact h q
      · rw [positions_setLed, radius_setPositionData]
        split
        · dsimp only
          split
          · rw [radius_clearExpandedRegion, if_pos rfl]
            exact hq5
          · exact h p
        · split
          · rw [radius_clearExpandedRegion]
            split
            · exact hq5
            · exact h q
          · exact h q
  | opStopBlink p =>
    show (((ledStopBlink p s).1.positions q).expansionRadius) ≤ _
    unfold ledStopBlink
    dsimp only
    split
    · exact h q
    · split
      · exact h q
      · split
        · exact h q
        · rw [radius_setPositionData]
          split
          · rw [positions_setLed]; exact h p
          · rw [positions_setLed]; exact h q
  | opExpandStep p =>
    show (((expandStep p s).1.positions q).expansionRadius) ≤ _
    unfold expandStep
    dsimp only
    split
    · exact h q
    · split
      · exact h q
      · split
        · exact h q
        · rw [radius_setPositionData]
          split
          · dsimp only
            rename_i hngt _
            omega
          · rw [positions_setLed, positions_setLed]
            exact h q
  | opContractStep p =>
    show (((contractStep p s).1.positions q).expansionRadius) ≤ _
    unfold contractStep
    dsimp only
    split
    · exact h q
    · split
      · exact h q
      · split
        · exact h q
        · rw [radius_setPositionData]
          split
          · dsimp only
            have := h p
            omega
          · rw [positions_setLed, positions_setLed]
            exact h q
  | opStartSeq now =>
    show ((startSequenceCompletedAnimation now s).positions q).expansionRadius ≤ _
    exact h q
  | opStartMenu r g b range now =>
    show ((startMenuChangeAnimation r g b range now s).positions q).expansionRadius ≤ _
    exact h q
  | opTick now =>
    simp only [applyLedOp]
    rw [radius_ledUpdate]
    exact h q

/-- C10 — for every position the expansion-radius counter stays in
`[0, 5]` after any sequence of LED commands and ticks from the
initialized controller; moreover `expandStep` at radius 5 and
`contractStep` at radius 0 both succeed (`true`) while leaving the whole
controller state (radius and pixels included) unchanged. -/
theorem expansion_radius_invariant :
    (∀ (ops : List LedOp) (p : Nat),
      ((runLedOps ops ledInit).positions p).expansionRadius ≤ SUCCESS_EXPANSION_RADIUS) ∧
    (∀ (s : LedState) (p : Nat), p < NUM_POSITIONS →
      (s.positions p).expansionRadius = SUCCESS_EXPANSION_RADIUS →
      expandStep p s = (s, true)) ∧
    (∀ (s : LedState) (p : Nat), p < NUM_POSITIONS →
      (s.positions p).expansionRadius = 0 →
      contractStep p s = (s, true)) := by
  refine ⟨?_, ?_, ?_⟩
  · intro ops
    suffices hmain : ∀ (ops : List LedOp) (s : LedState),
        (∀ q, (s.positions q).expansionRadius ≤ SUCCESS_EXPANSION_RADIUS) →
        ∀ p, ((runLedOps ops s).positions p).expansionRadius ≤ SUCCESS_EXPANSION_RADIUS by
      exact hmain ops ledInit (fun q => by
        show (0 : Nat) ≤ SUCCESS_EXPANSION_RADIUS
        decide)
    intro ops
    induction ops with
    | nil => intro s hs p; exact hs p
    | cons op ops ih =>
      intro s hs p
      exact ih (applyLedOp s op) (radius_applyLedOp op s hs) p
  · intro s p hp hrad
    obtain ⟨m, hm⟩ := Option.isSome_iff_exists.mp (getMapping_isSome p hp)
    unfold expandStep
    rw [if_neg (by omega), hm, hrad]
    rfl
  · intro s p hp hrad
    obtain ⟨m, hm⟩ := Option.isSome_iff_exists.mp (getMapping_isSome p hp)
    unfold contractStep
    rw [if_neg (by omega), hm, hrad]
    rfl

theorem positions_updateAnimation_self (i now : Nat) (s : LedState) (m : StripId × Nat)
    (hm : getMapping i = some m) :
    (updateAnimation i now s).positions i = posAnimData now (s.positions i) := by
  unfold updateAnimation posAnimData
  dsimp only
  split
  · rfl
  · rw [hm]
    dsimp only
    rw [positions_renderLoop, positions_setLed, positions_setPositionData, if_pos rfl]
    by_cases hc :
        ((s.positions i).animationStep + 1) % 256 ≥ SUCCESS_EXPANSION_RADIUS
    · simp only [if_pos hc]
    · simp only [if_neg hc]

theorem positions_updateAnimation_other (i now : Nat) (s : LedState) (q : Nat)
    (hq : q ≠ i) :
    (updateAnimation i now s).positions q = s.positions q := by
  unfold updateAnimation
  dsimp only
  split
  · rfl
  · split
    · rfl
    · rw [positions_renderLoop, positions_setLed, positions_setPositionData, if_neg hq]

theorem positions_updateContractAnimation_self (i now : Nat) (s : LedState)
    (m : StripId × Nat) (hm : getMapping i = some m) :
    (updateContractAnimation i now s).positions i = posContractData now (s.positions i) := by
  unfold updateContractAnimation posContractData
  dsimp only
  split
  · rfl
  · rw [hm]
    dsimp only
    by_cases hgt : (s.positions i).animationStep > 0
    · by_cases hz : (s.positions i).animationStep - 1 = 0
      · simp [hgt, hz, apply_ite LedState.positions, positions_setLed,
          positions_setPositionData]
      · simp [hgt, hz, apply_ite LedState.positions, positions_setLed,
          positions_setPositionData]
    · by_cases hz : (s.positions i).animationStep = 0
      · simp [hgt, hz, apply_ite LedState.positions, positions_setLed,
          positions_setPositionData]
      · simp [hgt, hz, apply_ite LedState.positions, positions_setLed,
          positions_setPositionData]

theorem positions_updateContractAnimation_other (i now : Nat) (s : LedState) (q : Nat)
    (hq : q ≠ i) :
    (updateContractAnimation i now s).positions q = s.positions q := by
  unfold updateContractAnimation
  dsimp only
  split
  · rfl
  · split
    · rfl
    · split_ifs <;>
        simp [apply_ite LedState.positions, positions_setLed, positions_setPositionData,
          hq, ite_self]

theorem positions_animStepAt_self (now : Nat) (s : LedState) (i : Nat)
    (hi : i < NUM_POSITIONS) :
    (animStepAt now s i).positions i = posDispatchData now (s.positions i) := by
  obtain ⟨m, hm⟩ := Option.isSome_iff_exists.mp (getMapping_isSome i hi)
  unfold animStepAt posDispatchData
  split
  · exact positions_updateAnimation_self i now s m hm
  · split
    · exact positions_updateContractAnimation_self i now s m hm
    · rfl

theorem positions_animStepAt_other (now : Nat) (s : LedState) (i q : Nat) (hq : q ≠ i) :
    (animStepAt now s i).positions q = s.positions q := by
  unfold animStepAt
  split
  · exact positions_updateAnimation_other i now s q hq
  · split
    · exact positions_updateContractAnimation_other i now s q hq
    · rfl

theorem positions_blinkStepAt_self (now : Nat) (s : LedState) (i : Nat) :
    (blinkStepAt now s i).positions i = posBlinkData now (s.positions i) := by
  unfold blinkStepAt posBlinkData
  dsimp only
  split
  · split
    · split
      · rw [positions_setPositionData, if_pos rfl]
      · dsimp only
        rw [positions_setLed, positions_setPositionData, if_pos rfl]
    · rfl
  · rfl

theorem positions_blinkStepAt_other (now : Nat) (s : LedState) (i q : Nat) (hq : q ≠ i) :
    (blinkStepAt now s i).positions q = s.positions q := by
  unfold blinkStepAt
  dsimp only
  split
  · split
    · split
      · rw [positions_setPositionData, if_neg hq]
      · rw [positions_setLed, positions_setPositionData, if_neg hq]
    · rfl
  · rfl

/-- Framing through a left fold over distinct position indices: each step
only touches its own position's data, and that effect is a pure function
of the old data. -/
theorem foldl_positions_frame (f : LedState → Nat → LedState)
    (g : Nat → PositionData → PositionData) (L : List Nat) (hnd : L.Nodup)
    (hself : ∀ s i, i ∈ L → (f s i).positions i = g i (s.positions i))
    (hother : ∀ s i q, q ≠ i → (f s i).positions q = s.positions q) :
    ∀ (s : LedState) (q : Nat), q ∈ L →
      (List.foldl f s L).positions q = g q (s.positions q) := by
  have haux : ∀ (L' : List Nat) (s : LedState) (q : Nat), q ∉ L' →
      (List.foldl f s L').positions q = s.positions q := by
    intro L'
    induction L' with
    | nil => intro s q _; rfl
    | cons i L' ih =>
      intro s q hq
      rw [List.foldl_cons, ih _ _ (fun hmem => hq (List.mem_cons_of_mem _ hmem)),
        hother s i q (fun he => hq (he ▸ List.mem_cons_self i L'))]
  induction L with
  | nil => intro s q hq; exact absurd hq (List.not_mem_nil q)
  | cons i L ih =>
    intro s q hq
    rw [List.foldl_cons]
    rcases List.mem_cons.mp hq with rfl | hmem
    · rw [haux L _ q (List.Nodup.not_mem hnd),
        hself s q (List.mem_cons_self q L)]
    · have hqi : q ≠ i := by
        rintro rfl
        exact (List.Nodup.not_mem hnd) hmem
      rw [ih (List.Nodup.of_cons hnd)
        (fun s' i' hi' => hself s' i' (List.mem_cons_of_mem _ hi')) _ _ hmem,
        hother s i q hqi]

theorem seqActive_setPositionData (s : LedState) (p : Nat) (pd : PositionData) :
    (setPositionData s p pd).sequenceAnimActive = s.sequenceAnimActive := rfl

theorem seqActive_setLed (s : LedState) (strip : StripId) (i : Int) (c : Color) :
    (setLed s strip i c).sequenceAnimActive = s.sequenceAnimActive := by
  unfold setLed
  split
  · rfl
  · split
    · cases strip <;> rfl
    · rfl

theorem seqActive_renderLoop (m : StripId × Nat) (n : Nat) (st : LedState) :
    ((List.range n).foldl (fun st k => renderExpandPair m (k + 1) st) st).sequenceAnimActive
      = st.sequenceAnimActive :=
  foldl_preserves _ _
    (fun a b => by
      unfold renderExpandPair
      dsimp only
      split_ifs <;> simp only [seqActive_setLed]) _ _

theorem seqActive_animStepAt (now : Nat) (s : LedState) (i : Nat) :
    (animStepAt now s i).sequenceAnimActive = s.sequenceAnimActive := by
  unfold animStepAt updateAnimation updateContractAnimation
  dsimp only
  split
  · split
    · rfl
    · split
      · rfl
      · rw [seqActive_renderLoop, seqActive_setLed]
        rfl
  · split
    · split
      · rfl
      · split
        · rfl
        · split_ifs <;>
            simp only [seqActive_setPositionData, seqActive_setLed]
    · rfl

theorem seqActive_blinkStepAt (now : Nat) (s : LedState) (i : Nat) :
    (blinkStepAt now s i).sequenceAnimActive = s.sequenceAnimActive := by
  unfold blinkStepAt
  dsimp only
  split
  · split
    · split
      · rfl
      · simp only [seqActive_setLed, seqActive_setPositionData]
    · rfl
  · rfl

theorem seqActive_updateMenuChangeAnimation (now : Nat) (s : LedState) :
    (updateMenuChangeAnimation now s).sequenceAnimActive = s.sequenceAnimActive := by
  unfold updateMenuChangeAnimation
  dsimp only
  split_ifs <;> rfl

theorem positions_flush (x : LedState) :
    (if x.needsUpdate = true then { x with needsUpdate := false } else x).positions =
      x.positions := by
  split <;> rfl

theorem seqActive_flush (x : LedState) :
    (if x.needsUpdate = true then { x with needsUpdate := false } else x).sequenceAnimActive =
      x.sequenceAnimActive := by
  split <;> rfl

set_option maxRecDepth 16384 in
theorem seqActive_ledUpdate (now : Nat) (s : LedState)
    (h : s.sequenceAnimActive = false) :
    (ledUpdate now s).sequenceAnimActive = false := by
  unfold ledUpdate
  dsimp only
  have h1 : ∀ (L : List Nat) (x : LedState),
      ((L.foldl (animStepAt now) x).sequenceAnimActive) = x.sequenceAnimActive :=
    fun L x => foldl_preserves _ _ (fun a b => seqActive_animStepAt now a b) L x
  have h2 : ∀ (L : List Nat) (x : LedState),
      ((L.foldl (blinkStepAt now) x).sequenceAnimActive) = x.sequenceAnimActive :=
    fun L x => foldl_preserves _ _ (fun a b => seqActive_blinkStepAt now a b) L x
  have hseqF : ((List.range NUM_POSITIONS).foldl (blinkStepAt now)
      ((List.range NUM_POSITIONS).foldl (animStepAt now) s)).sequenceAnimActive = false := by
    rw [h2, h1]; exact h
  have hcond : ¬ (((List.range NUM_POSITIONS).foldl (blinkStepAt now)
      ((List.range NUM_POSITIONS).foldl (animStepAt now) s)).sequenceAnimActive = true) := by
    rw [hseqF]; exact Bool.false_ne_true
  rw [if_neg hcond, seqActive_flush, apply_ite LedState.sequenceAnimActive,
    seqActive_updateMenuChangeAnimation, ite_self]
  exact hseqF

set_option maxRecDepth 16384 in
/-- The per-position outcome of one `LedController::update` tick while no
sequence-completed animation is running. -/
theorem ledUpdate_positions (now : Nat) (s : LedState)
    (hseq : s.sequenceAnimActive = false) (q : Nat) (hq : q < NUM_POSITIONS) :
    (ledUpdate now s).positions q =
      posBlinkData now (posDispatchData now (s.positions q)) := by
  unfold ledUpdate
  dsimp only
  have hmem : q ∈ List.range NUM_POSITIONS := List.mem_range.mpr hq
  have h1 : ∀ (x : LedState),
      ((List.range NUM_POSITIONS).foldl (animStepAt now) x).positions q =
        posDispatchData now (x.positions q) :=
    fun x => foldl_positions_frame (animStepAt now) (fun _ pd => posDispatchData now pd)
      (List.range NUM_POSITIONS) (List.nodup_range _)
      (fun s' i hi => positions_animStepAt_self now s' i (List.mem_range.mp hi))
      (fun s' i q' hq' => positions_animStepAt_other now s' i q' hq') x q hmem
  have h2 : ∀ (x : LedState),
      ((List.range NUM_POSITIONS).foldl (blinkStepAt now) x).positions q =
        posBlinkData now (x.positions q) :=
    fun x => foldl_positions_frame (blinkStepAt now) (fun _ pd => posBlinkData now pd)
      (List.range NUM_POSITIONS) (List.nodup_range _)
      (fun s' i _ => positions_blinkStepAt_self now s' i)
      (fun s' i q' hq' => positions_blinkStepAt_other now s' i q' hq') x q hmem
  have hseq1 : ((List.range NUM_POSITIONS).foldl (blinkStepAt now)
      ((List.range NUM_POSITIONS).foldl (animStepAt now) s)).sequenceAnimActive = false := by
    rw [foldl_preserves _ _ (fun a b => seqActive_blinkStepAt now a b),
      foldl_preserves _ _ (fun a b => seqActive_animStepAt now a b)]
    exact hseq
  have hcond : ¬ (((List.range NUM_POSITIONS).foldl (blinkStepAt now)
      ((List.range NUM_POSITIONS).foldl (animStepAt now) s)).sequenceAnimActive = true) := by
    rw [hseq1]; exact Bool.false_ne_true
  rw [if_neg hcond, positions_flush, apply_ite LedState.positions,
    positions_updateMenuChangeAnimation, ite_self, h2, h1]

theorem ledSuccess_positions_self (now p : Nat) (s : LedState) (m : StripId × Nat)
    (hp : p < NUM_POSITIONS) (hm : getMapping p = some m) :
    (((ledSuccess now p s).1.positions p).state = PositionState.ANIMATING) ∧
    (((ledSuccess now p s).1.positions p).animationStep = 0) ∧
    (((ledSuccess now p s).1.positions p).lastAnimationTime = now) := by
  unfold ledSuccess
  rw [if_neg (by omega), hm]
  dsimp only
  rw [positions_setLed, positions_setPositionData, if_pos rfl]
  exact ⟨rfl, rfl, rfl⟩

theorem seqActive_clearExpandedRegion (s : LedState) (p : Nat) (m : StripId × Nat) :
    (clearExpandedRegion s p m).sequenceAnimActive = s.sequenceAnimActive := by
  unfold clearExpandedRegion
  rw [seqActive_setPositionData]
  exact foldl_preserves _ LedState.sequenceAnimActive
    (fun a b => by
      split
      · rw [seqActive_setLed]
      · rfl) _ _

theorem seqActive_ledSuccess (now p : Nat) (s : LedState) :
    ((ledSuccess now p s).1).sequenceAnimActive = s.sequenceAnimActive := by
  unfold ledSuccess
  dsimp only
  split
  · rfl
  · split
    · rfl
    · rw [seqActive_setLed, seqActive_setPositionData]
      split
      · rw [seqActive_clearExpandedRegion]
      · split
        · rw [seqActive_setLed]
        · rfl

theorem c3_invariant (s : LedState) (p t0 : Nat) (hp : p < NUM_POSITIONS)
    (hseq : s.sequenceAnimActive = false) :
    ∀ k, k ≤ SUCCESS_EXPANSION_RADIUS →
      (((ledTicks t0 k ((ledSuccess t0 p s).1)).positions p).state =
        (if k < SUCCESS_EXPANSION_RADIUS then PositionState.ANIMATING
         else PositionState.EXPANDED)) ∧
      (((ledTicks t0 k ((ledSuccess t0 p s).1)).positions p).animationStep = k) ∧
      (((ledTicks t0 k ((ledSuccess t0 p s).1)).positions p).lastAnimationTime =
        t0 + ANIMATION_STEP_MS * k) ∧
      ((ledTicks t0 k ((ledSuccess t0 p s).1)).sequenceAnimActive = false) := by
  obtain ⟨m, hm⟩ := Option.isSome_iff_exists.mp (getMapping_isSome p hp)
  obtain ⟨hS1, hS2, hS3⟩ := ledSuccess_positions_self t0 p s m hp hm
  intro k
  induction k with
  | zero =>
    intro _
    simp only [ledTicks]
    refine ⟨?_, hS2, ?_, ?_⟩
    · rw [if_pos (by decide)]
      exact hS1
    · rw [hS3]
      omega
    · rw [seqActive_ledSuccess]
      exact hseq
  | succ k ih =>
    intro hk5
    obtain ⟨hst, hstep, hlast, hseqk⟩ := ih (by omega)
    have hkap : k < SUCCESS_EXPANSION_RADIUS := by
      simp only [SUCCESS_EXPANSION_RADIUS] at hk5 ⊢
      omega
    have hstA : ((ledTicks t0 k ((ledSuccess t0 p s).1)).positions p).state =
        PositionState.ANIMATING := by
      rw [hst, if_pos hkap]
    have hstep' : ledTicks t0 (k + 1) ((ledSuccess t0 p s).1) =
        ledUpdate (t0 + ANIMATION_STEP_MS * (k + 1))
          (ledTicks t0 k ((ledSuccess t0 p s).1)) := rfl
    rw [hstep']
    have hpos := ledUpdate_positions (t0 + ANIMATION_STEP_MS * (k + 1))
      (ledTicks t0 k ((ledSuccess t0 p s).1)) hseqk p hp
    have hseqnew := seqActive_ledUpdate (t0 + ANIMATION_STEP_MS * (k + 1))
      (ledTicks t0 k ((ledSuccess t0 p s).1)) hseqk
    rw [hpos]
    unfold posDispatchData
    rw [if_pos hstA]
    unfold posAnimData
    have harith : t0 + ANIMATION_STEP_MS * (k + 1) =
        (t0 + ANIMATION_STEP_MS * k) + ANIMATION_STEP_MS := by
      simp only [ANIMATION_STEP_MS]
      ring
    rw [hlast, harith, sub32_add_right _ _ (by decide)]
    rw [if_neg (by decide)]
    rw [hstep]
    have hmod : (k + 1) % 256 = k + 1 := Nat.mod_eq_of_lt (by
      simp only [SUCCESS_EXPANSION_RADIUS] at hkap
      omega)
    rw [hmod]
    by_cases hge : k + 1 ≥ SUCCESS_EXPANSION_RADIUS
    · rw [if_pos hge]
      have hkeq : k + 1 = SUCCESS_EXPANSION_RADIUS := by omega
      unfold posBlinkData
      split
      · next hcon => exact PositionState.noConfusion hcon
      · refine ⟨?_, hkeq.symm, rfl, hseqnew⟩
        rw [if_neg (Nat.not_lt.mpr hge)]
    · rw [if_neg hge]
      unfold posBlinkData
      split
      · next hcon =>
        dsimp only at hcon
        rw [hstA] at hcon
        exact PositionState.noConfusion hcon
      · refine ⟨?_, rfl, rfl, hseqnew⟩
        rw [if_pos (by omega)]
        dsimp only
        exact hstA
/-- C3 — from `success`, the position stays `ANIMATING` (completion
predicate false, so the protocol engine emits no DONE) for the first
four step-interval ticks, and reaches `EXPANDED` exactly at the fifth;
and `tickCommand` emits nothing for an active SUCCESS slot while the
completion predicate is false. -/
theorem success_animation_five_steps :
    (∀ (s : LedState) (p t0 : Nat), p < NUM_POSITIONS → s.sequenceAnimActive = false →
      (∀ k, k < SUCCESS_EXPANSION_RADIUS →
        isAnimationComplete (ledTicks t0 k ((ledSuccess t0 p s).1)) p = false) ∧
      ((ledTicks t0 SUCCESS_EXPANSION_RADIUS ((ledSuccess t0 p s).1)).positions p).state =
        PositionState.EXPANDED ∧
      isAnimationComplete
        (ledTicks t0 SUCCESS_EXPANSION_RADIUS ((ledSuccess t0 p s).1)) p = true) ∧
    (∀ (led : LedState) (qc : QueuedCommand),
      qc.active = true → qc.command.action = CommandAction.SUCCESS →
      isAnimationComplete led qc.command.positionIndex = false →
      tickCommand led qc = (qc, [])) := by
  constructor
  · intro s p t0 hp hseq
    have hstE : ((ledTicks t0 SUCCESS_EXPANSION_RADIUS
        ((ledSuccess t0 p s).1)).positions p).state = PositionState.EXPANDED := by
      obtain ⟨hst, _, _, _⟩ :=
        c3_invariant s p t0 hp hseq SUCCESS_EXPANSION_RADIUS (le_refl _)
      rw [hst, if_neg (by decide)]
    refine ⟨?_, hstE, ?_⟩
    · intro k hk
      obtain ⟨hst, _, _, _⟩ := c3_invariant s p t0 hp hseq k (Nat.le_of_lt hk)
      have hstA : ((ledTicks t0 k ((ledSuccess t0 p s).1)).positions p).state =
          PositionState.ANIMATING := by
        rw [hst, if_pos hk]
      unfold isAnimationComplete
      rw [if_neg (by omega), hstA]
      decide
    · unfold isAnimationComplete
      rw [if_neg (by omega), hstE]
      decide
  · intro led qc hact haction hcompl
    unfold tickCommand
    have hcond : ¬ ((!qc.active) = true) := by
      rw [hact]
      decide
    rw [if_neg hcond, haction]
    dsimp only
    rw [hcompl]
    rfl

theorem menu_invariant (r g b range t0 : Nat) (s0 : LedState) (hr : range ≤ 254) :
    ∀ k, k ≤ range + 1 →
      ((menuTicks t0 k (startMenuChangeAnimation r g b range t0 s0)).menuChangeActive = true) ∧
      ((menuTicks t0 k (startMenuChangeAnimation r g b range t0 s0)).menuChangeStep = k) ∧
      ((menuTicks t0 k (startMenuChangeAnimation r g b range t0 s0)).menuChangeLastTime
        = t0 + k) ∧
      ((menuTicks t0 k (startMenuChangeAnimation r g b range t0 s0)).menuChangeRange
        = range) ∧
      ((menuTicks t0 k (startMenuChangeAnimation r g b range t0 s0)).menuChangeR = r) ∧
      ((menuTicks t0 k (startMenuChangeAnimation r g b range t0 s0)).menuChangeG = g) ∧
      ((menuTicks t0 k (startMenuChangeAnimation r g b range t0 s0)).menuChangeB = b) ∧
      (∀ j, j < k →
        (menuTicks t0 k (startMenuChangeAnimation r g b range t0 s0)).strip1 j = ⟨r, g, b⟩ ∧
        (menuTicks t0 k (startMenuChangeAnimation r g b range t0 s0)).strip2 j = ⟨r, g, b⟩) ∧
      (∀ j, k ≤ j →
        (menuTicks t0 k (startMenuChangeAnimation r g b range t0 s0)).strip1 j = COLOR_OFF ∧
        (menuTicks t0 k (startMenuChangeAnimation r g b range t0 s0)).strip2 j
          = COLOR_OFF) := by
  intro k
  induction k with
  | zero =>
    intro _
    simp only [menuTicks]
    refine ⟨rfl, rfl, by show t0 = t0 + 0; omega, rfl, rfl, rfl, rfl, ?_, ?_⟩
    · intro j hj
      omega
    · intro j _
      exact ⟨rfl, rfl⟩
  | succ k ih =>
    intro hk1
    obtain ⟨hact, hstep, hlast, hrange, hR, hG, hB, hlit, hoff⟩ := ih (by omega)
    set sk := menuTicks t0 k (startMenuChangeAnimation r g b range t0 s0) with hsk
    have hiter : menuTicks t0 (k + 1) (startMenuChangeAnimation r g b range t0 s0) =
        menuTick (t0 + (k + 1) * MENU_CHANGE_STEP_MS) sk := rfl
    rw [hiter]
    unfold menuTick
    rw [if_pos hact]
    unfold updateMenuChangeAnimation
    have harith : t0 + (k + 1) * MENU_CHANGE_STEP_MS = (t0 + k) + 1 := by
      simp only [MENU_CHANGE_STEP_MS]
      ring
    rw [hlast, harith, sub32_add_right _ _ (by decide), if_neg (by decide)]
    dsimp only
    have hle : sk.menuChangeStep ≤ sk.menuChangeRange := by
      rw [hstep, hrange]
      omega
    rw [if_pos hle]
    have hcolor : (⟨sk.menuChangeR, sk.menuChangeG, sk.menuChangeB⟩ : Color) = ⟨r, g, b⟩ := by
      rw [hR, hG, hB]
    refine ⟨hact, ?_, by show (t0 + k) + 1 = t0 + (k + 1); omega,
      hrange, hR, hG, hB, ?_, ?_⟩
    · show (sk.menuChangeStep + 1) % 256 = k + 1
      rw [hstep]
      exact Nat.mod_eq_of_lt (by omega)
    · intro j hj
      show (if j = sk.menuChangeStep then _ else sk.strip1 j) = _ ∧
        (if j = sk.menuChangeStep then _ else sk.strip2 j) = _
      rw [hstep]
      by_cases hjk : j = k
      · rw [if_pos hjk, if_pos hjk]
        exact ⟨hcolor, hcolor⟩
      · rw [if_neg hjk, if_neg hjk]
        exact hlit j (by omega)
    · intro j hj
      show (if j = sk.menuChangeStep then _ else sk.strip1 j) = _ ∧
        (if j = sk.menuChangeStep then _ else sk.strip2 j) = _
      rw [hstep]
      have hjk : j ≠ k := by omega
      rw [if_neg hjk, if_neg hjk]
      exact hoff j (by omega)

/-- C9 (amended) — for `range ≤ 254` the sweep lights consecutive absolute
indices `0..range`, one per minimal interval, in the single color
`(r,g,b)` on both strips; the completion predicate is false through the
update that lights index `range` and becomes true at the following
update. -/
theorem menu_sweep_lights_consecutive (r g b range t0 : Nat) (s0 : LedState)
    (hr : range ≤ 254) :
    (∀ k, k ≤ range + 1 →
      isMenuChangeAnimationComplete
        (menuTicks t0 k (startMenuChangeAnimation r g b range t0 s0)) = false ∧
      (∀ j, j < k →
        (menuTicks t0 k (startMenuChangeAnimation r g b range t0 s0)).strip1 j = ⟨r, g, b⟩ ∧
        (menuTicks t0 k (startMenuChangeAnimation r g b range t0 s0)).strip2 j = ⟨r, g, b⟩) ∧
      (∀ j, k ≤ j →
        (menuTicks t0 k (startMenuChangeAnimation r g b range t0 s0)).strip1 j = COLOR_OFF ∧
        (menuTicks t0 k (startMenuChangeAnimation r g b range t0 s0)).strip2 j
          = COLOR_OFF)) ∧
    isMenuChangeAnimationComplete
      (menuTicks t0 (range + 2) (startMenuChangeAnimation r g b range t0 s0)) = true := by
  constructor
  · intro k hk
    obtain ⟨hact, _, _, _, _, _, _, hlit, hoff⟩ := menu_invariant r g b range t0 s0 hr k hk
    refine ⟨?_, hlit, hoff⟩
    unfold isMenuChangeAnimationComplete
    rw [hact]
    rfl
  · obtain ⟨hact, hstep, hlast, hrange, _, _, _, _, _⟩ :=
      menu_invariant r g b range t0 s0 hr (range + 1) (le_refl _)
    set sk := menuTicks t0 (range + 1) (startMenuChangeAnimation r g b range t0 s0)
      with hsk
    have hiter : menuTicks t0 (range + 2) (startMenuChangeAnimation r g b range t0 s0) =
        menuTick (t0 + (range + 2) * MENU_CHANGE_STEP_MS) sk := rfl
    rw [hiter]
    unfold menuTick
    rw [if_pos hact]
    unfold updateMenuChangeAnimation
    have harith : t0 + (range + 2) * MENU_CHANGE_STEP_MS = (t0 + (range + 1)) + 1 := by
      simp only [MENU_CHANGE_STEP_MS]
      ring
    rw [hlast, harith, sub32_add_right _ _ (by decide), if_neg (by decide)]
    dsimp only
    have hgt : ¬ (sk.menuChangeStep ≤ sk.menuChangeRange) := by
      rw [hstep, hrange]
      omega
    rw [if_neg hgt]
    rfl

/-- The uint8 wrap at `range = 255`: the step counter always stays at or
below the range, so the sweep never terminates. -/
theorem menu_wrap_never_completes (r g b t0 : Nat) (s0 : LedState) :
    ∀ n, (menuTicks t0 n (startMenuChangeAnimation r g b 255 t0 s0)).menuChangeActive = true ∧
      (menuTicks t0 n (startMenuChangeAnimation r g b 255 t0 s0)).menuChangeStep ≤ 255 ∧
      (menuTicks t0 n (startMenuChangeAnimation r g b 255 t0 s0)).menuChangeRange = 255 ∧
      (menuTicks t0 n (startMenuChangeAnimation r g b 255 t0 s0)).menuChangeLastTime
        = t0 + n := by
  intro n
  induction n with
  | zero =>
    simp only [menuTicks]
    exact ⟨rfl, by show (0 : Nat) ≤ 255; decide, rfl, by show t0 = t0 + 0; omega⟩
  | succ n ih =>
    obtain ⟨hact, hstep, hrange, hlast⟩ := ih
    set sk := menuTicks t0 n (startMenuChangeAnimation r g b 255 t0 s0) with hsk
    have hiter : menuTicks t0 (n + 1) (startMenuChangeAnimation r g b 255 t0 s0) =
        menuTick (t0 + (n + 1) * MENU_CHANGE_STEP_MS) sk := rfl
    rw [hiter]
    unfold menuTick
    rw [if_pos hact]
    unfold updateMenuChangeAnimation
    have harith : t0 + (n + 1) * MENU_CHANGE_STEP_MS = (t0 + n) + 1 := by
      simp only [MENU_CHANGE_STEP_MS]
      ring
    rw [hlast, harith, sub32_add_right _ _ (by decide), if_neg (by decide)]
    dsimp only
    have hle : sk.menuChangeStep ≤ sk.menuChangeRange := by
      rw [hrange]
      exact hstep
    rw [if_pos hle]
    refine ⟨hact, ?_, hrange, by show (t0 + n) + 1 = t0 + (n + 1); omega⟩
    show (sk.menuChangeStep + 1) % 256 ≤ 255
    have := Nat.mod_lt (sk.menuChangeStep + 1) (show 0 < 256 by decide)
    omega

/-- C9 counterexample — with `range = 255` the completion predicate is
still false after 300 minimal-interval updates (it never becomes true):
`m_menuChangeStep` is a `uint8_t` and wraps past 255, so `step ≤ range`
never fails.  The sweep had already reached index 255 at update 256. -/
theorem menu_range255_not_complete_after_300 :
    isMenuChangeAnimationComplete
      (menuTicks 0 300 (startMenuChangeAnimation 1 2 3 255 0 ledInit)) = false := by
  obtain ⟨hact, _, _, _⟩ := menu_wrap_never_completes 1 2 3 0 ledInit 300
  unfold isMenuChangeAnimationComplete
  rw [hact]
  rfl

/-- C8 — `show` then `hide` on a valid position returns every pixel of that
position (center ± maximum expansion radius) to the background color and
leaves the position `OFF` with expansion radius `0`. -/
theorem show_hide_clears_position (s : LedState) (p : Nat) (hp : p < NUM_POSITIONS) :
    ((ledHide p (ledShow p s).1).1.positions p).state = PositionState.OFF ∧
    ((ledHide p (ledShow p s).1).1.positions p).expansionRadius = 0 ∧
    ∀ m, getMapping p = some m → ∀ idx : Nat,
      m.2 - SUCCESS_EXPANSION_RADIUS ≤ idx → idx ≤ m.2 + SUCCESS_EXPANSION_RADIUS →
      getStripPixel (ledHide p (ledShow p s).1).1 m.1 idx = COLOR_OFF := by
  have hm := getMapping_isSome p hp
  obtain ⟨m, hmeq⟩ := Option.isSome_iff_exists.mp hm
  have hb := mapping_bounds p hp m hmeq
  set s1 := (ledShow p s).1 with hs1
  refine ⟨?_, ?_, ?_⟩
  · rw [positions_ledHide p s1 m hp hmeq p, if_pos rfl]
  · rw [positions_ledHide p s1 m hp hmeq p, if_pos rfl]
  · intro m' hm' idx hlo hhi
    rw [hmeq] at hm'
    injection hm' with hm'
    subst hm'
    rw [getStripPixel_ledHide p s1 m hp hmeq]
    have hmax : SUCCESS_EXPANSION_RADIUS ≤
        max (s1.positions p).expansionRadius SUCCESS_EXPANSION_RADIUS :=
      Nat.le_max_right _ _
    apply clearExpandedRegion_pixel_off
    · omega
    · omega
    · omega

-- ===========================================================================
-- C7: SET_SENSITIVITY level range
-- ===========================================================================

set_option maxRecDepth 100000 in
theorem set_sensitivity_parse_ok :
    ∀ i < 25, ∀ d < 8,
      parseLineM (("SET_SENSITIVITY ").data ++ [indexToLetter i, ' ', digitChar d]) =
        (some { emptyCommand with
                  action := CommandAction.SET_SENSITIVITY
                  hasPosition := true
                  position := indexToLetter i
                  positionIndex := i
                  extraValue := d
                  valid := true }, []) := by
  decide

set_option maxRecDepth 100000 in
theorem set_sensitivity_parse_reject :
    ∀ i < 25,
      parseLineM (("SET_SENSITIVITY ").data ++ [indexToLetter i, ' ', '8']) =
        (none, [mkError ("invalid_level").data COMMAND_ID_NONE]) := by
  decide

set_option maxRecDepth 100000 in
theorem sensitivity_field_encoding :
    ∀ v < 256, ∀ d < 8,
      ((v &&& 0x8F) ||| (d <<< 4)) / 16 % 8 = d ∧
      ((v &&& 0x8F) ||| (d <<< 4)) % 16 = v % 16 ∧
      ((v &&& 0x8F) ||| (d <<< 4)) / 128 = v / 128 := by
  decide

/-- C7 — `SET_SENSITIVITY <pos> <d>` with `d ≤ 7` parses to a valid command
whose execution on an active in-range channel performs exactly one register
write of the sensitivity-control register, with the level encoded in bits
6:4 and the remaining bits (3:0 and 7) of the old register value preserved;
level `8` is rejected at parse time with an `invalid_level` error and the
whole system state — in particular the write log — is untouched. -/
theorem set_sensitivity_levels (now i d v : Nat) (hi : i < 25) (hd : d ≤ 7)
    (hv256 : v < 256) (sys : Sys) (htp : sys.touchPresent = true)
    (hact : (sys.touch.sensors i).active = true)
    (hreg : readRegister sys.bus (sensorAddr i) CAP1188_REG_SENSITIVITY_CONTROL = some v) :
    parseLineM (("SET_SENSITIVITY ").data ++ [indexToLetter i, ' ', digitChar d]) =
      (some { emptyCommand with
                action := CommandAction.SET_SENSITIVITY
                hasPosition := true
                position := indexToLetter i
                positionIndex := i
                extraValue := d
                valid := true }, []) ∧
    (executeInstant now sys
        { emptyCommand with
            action := CommandAction.SET_SENSITIVITY
            hasPosition := true
            position := indexToLetter i
            positionIndex := i
            extraValue := d
            valid := true }).1.bus.writes =
      sys.bus.writes ++
        [(sensorAddr i, CAP1188_REG_SENSITIVITY_CONTROL, (v &&& 0x8F) ||| (d <<< 4))] ∧
    ((v &&& 0x8F) ||| (d <<< 4)) / 16 % 8 = d ∧
    ((v &&& 0x8F) ||| (d <<< 4)) % 16 = v % 16 ∧
    ((v &&& 0x8F) ||| (d <<< 4)) / 128 = v / 128 ∧
    processLine now (("SET_SENSITIVITY ").data ++ [indexToLetter i, ' ', '8']) sys =
      (sys, [mkError ("invalid_level").data COMMAND_ID_NONE]) := by
  have hbits := sensitivity_field_encoding v hv256 d (by omega)
  refine ⟨set_sensitivity_parse_ok i hi d (by omega), ?_, hbits.1, hbits.2.1, hbits.2.2, ?_⟩
  · unfold executeInstant
    dsimp only
    rw [if_pos htp]
    unfold setSensitivity
    have hnotge : ¬ (i ≥ TOUCH_SENSOR_COUNT) := by
      unfold TOUCH_SENSOR_COUNT
      omega
    rw [if_neg hnotge]
    have hnotact : ¬ ((!(sys.touch.sensors i).active) = true) := by
      rw [hact]
      decide
    rw [if_neg hnotact]
    have hnotgt : ¬ (d > 7) := by omega
    rw [if_neg hnotgt]
    dsimp only
    rw [hreg]
    unfold writeRegister
    dsimp only
    split <;> rfl
  · unfold processLine
    rw [set_sensitivity_parse_reject i hi]

theorem debounceAt_eq (now : Nat) (tsA : TouchState) (evsA : List Event) (i : Nat) :
    debounceAt now (tsA, evsA) i =
      ({ sensors := fun q => if q = i then (chanResult now tsA i).1 else tsA.sensors q
         expectDown := fun q => if q = i then (chanResult now tsA i).2.1 else tsA.expectDown q
         expectUp := fun q => if q = i then (chanResult now tsA i).2.2.1 else tsA.expectUp q },
       evsA ++ (chanResult now tsA i).2.2.2) := rfl

theorem debounce_fold (now : Nat) (ts : TouchState) :
    ∀ l : List Nat, l.Nodup →
      ∀ (tsA : TouchState) (evsA : List Event),
        (∀ i ∈ l, tsA.sensors i = ts.sensors i ∧ tsA.expectDown i = ts.expectDown i ∧
          tsA.expectUp i = ts.expectUp i) →
        (∀ j,
          (l.foldl (debounceAt now) (tsA, evsA)).1.sensors j =
            (if j ∈ l then (chanResult now ts j).1 else tsA.sensors j) ∧
          (l.foldl (debounceAt now) (tsA, evsA)).1.expectDown j =
            (if j ∈ l then (chanResult now ts j).2.1 else tsA.expectDown j) ∧
          (l.foldl (debounceAt now) (tsA, evsA)).1.expectUp j =
            (if j ∈ l then (chanResult now ts j).2.2.1 else tsA.expectUp j)) ∧
        (l.foldl (debounceAt now) (tsA, evsA)).2 =
          evsA ++ l.flatMap (fun i => (chanResult now ts i).2.2.2) := by
  intro l
  induction l with
  | nil =>
    intro _ tsA evsA _
    refine ⟨fun j => ⟨?_, ?_, ?_⟩, ?_⟩ <;> simp
  | cons i rest ih =>
    intro hnd tsA evsA hagree
    have hnd' := List.nodup_cons.mp hnd
    obtain ⟨hag1, hag2, hag3⟩ := hagree i (List.mem_cons_self i rest)
    have hch : chanResult now tsA i = chanResult now ts i := by
      unfold chanResult
      rw [hag1, hag2, hag3]
    rw [List.foldl_cons, debounceAt_eq, hch]
    set tsB : TouchState :=
      { sensors := fun q => if q = i then (chanResult now ts i).1 else tsA.sensors q
        expectDown := fun q => if q = i then (chanResult now ts i).2.1 else tsA.expectDown q
        expectUp := fun q => if q = i then (chanResult now ts i).2.2.1 else tsA.expectUp q }
      with htsB
    have hagB : ∀ k ∈ rest, tsB.sensors k = ts.sensors k ∧
        tsB.expectDown k = ts.expectDown k ∧ tsB.expectUp k = ts.expectUp k := by
      intro k hk
      have hki : k ≠ i := by
        rintro rfl
        exact hnd'.1 hk
      obtain ⟨a1, a2, a3⟩ := hagree k (List.mem_cons_of_mem _ hk)
      rw [htsB]
      refine ⟨?_, ?_, ?_⟩ <;> dsimp only <;> rw [if_neg hki] <;> assumption
    obtain ⟨hcomp, hevs⟩ := ih hnd'.2 tsB (evsA ++ (chanResult now ts i).2.2.2) hagB
    constructor
    · intro j
      obtain ⟨s1, s2, s3⟩ := hcomp j
      by_cases hjr : j ∈ rest
      · have hjl : j ∈ i :: rest := List.mem_cons_of_mem _ hjr
        rw [s1, s2, s3, if_pos hjr, if_pos hjr, if_pos hjr,
          if_pos hjl, if_pos hjl, if_pos hjl]
        exact ⟨rfl, rfl, rfl⟩
      · rw [s1, s2, s3, if_neg hjr, if_neg hjr, if_neg hjr, htsB]
        by_cases hji : j = i
        · subst hji
          have hjl : j ∈ j :: rest := List.mem_cons_self j rest
          rw [if_pos hjl, if_pos hjl, if_pos hjl]
          exact ⟨by dsimp only; rw [if_pos rfl],
                 by dsimp only; rw [if_pos rfl],
                 by dsimp only; rw [if_pos rfl]⟩
        · have hjl : j ∉ i :: rest := by
            intro hc
            rcases List.mem_cons.mp hc with rfl | hc
            · exact hji rfl
            · exact hjr hc
          rw [if_neg hjl, if_neg hjl, if_neg hjl]
          exact ⟨by dsimp only; rw [if_neg hji],
                 by dsimp only; rw [if_neg hji],
                 by dsimp only; rw [if_neg hji]⟩
    · rw [hevs, List.flatMap_cons, List.append_assoc]

theorem processDebounce_spec (now : Nat) (ts : TouchState) :
    (∀ j < TOUCH_SENSOR_COUNT,
      (processDebounce now ts).1.sensors j = (chanResult now ts j).1 ∧
      (processDebounce now ts).1.expectDown j = (chanResult now ts j).2.1 ∧
      (processDebounce now ts).1.expectUp j = (chanResult now ts j).2.2.1) ∧
    (processDebounce now ts).2 =
      (List.range TOUCH_SENSOR_COUNT).flatMap (fun i => (chanResult now ts i).2.2.2) := by
  obtain ⟨hcomp, hevs⟩ := debounce_fold now ts (List.range TOUCH_SENSOR_COUNT)
    (List.nodup_range _) ts [] (fun i _ => ⟨rfl, rfl, rfl⟩)
  constructor
  · intro j hj
    obtain ⟨s1, s2, s3⟩ := hcomp j
    have hmem : j ∈ List.range TOUCH_SENSOR_COUNT := List.mem_range.mpr hj
    unfold processDebounce
    rw [s1, s2, s3, if_pos hmem, if_pos hmem, if_pos hmem]
    exact ⟨rfl, rfl, rfl⟩
  · unfold processDebounce
    rw [hevs]
    rfl

theorem debounceChannel_idle (now : Nat) (L : Char) (s : TouchSensorState)
    (wd wu : ExpectState) (h : s.currentTouched = s.debouncedTouched) :
    debounceChannel now L s wd wu = (s, wd, wu, []) := by
  unfold debounceChannel
  split
  · rfl
  · rw [if_neg (fun hc => hc h)]

theorem debounceChannel_pending (now : Nat) (L : Char) (s : TouchSensorState)
    (wd wu : ExpectState) (h : s.currentTouched ≠ s.debouncedTouched)
    (hlt : sub32 now s.lastChangeTime <
      (if s.currentTouched then TOUCH_DEBOUNCE_PRESS_MS else TOUCH_DEBOUNCE_RELEASE_MS)) :
    debounceChannel now L s wd wu = (s, wd, wu, []) := by
  unfold debounceChannel
  by_cases hact : (!s.active) = true
  · rw [if_pos hact]
  · rw [if_neg hact, if_pos h]
    dsimp only
    rw [if_neg (Nat.not_le.mpr hlt)]

theorem debounceChannel_press_consume (now : Nat) (L : Char) (s : TouchSensorState)
    (wd wu : ExpectState) (ha : s.active = true) (hc : s.currentTouched = true)
    (hd : s.debouncedTouched = false) (hr : s.lastReportedTouched = false)
    (hdw : sub32 now s.lastChangeTime ≥ TOUCH_DEBOUNCE_PRESS_MS)
    (hw : wd.active = true) :
    debounceChannel now L s wd wu =
      ({ s with debouncedTouched := true, lastReportedTouched := true },
       inactiveExpect, wu, [mkTouched L wd.commandId]) := by
  obtain ⟨sa, sc, sd, sr, sT⟩ := s
  dsimp only at ha hc hd hr hdw ⊢
  subst ha
  subst hc
  subst hd
  subst hr
  unfold debounceChannel
  simp only [Bool.not_true, reduceIte, ne_eq, Bool.true_eq_false, not_false_eq_true,
    Bool.false_eq_true]
  rw [if_pos hdw, if_pos hw]

theorem debounceChannel_press_silent (now : Nat) (L : Char) (s : TouchSensorState)
    (wd wu : ExpectState) (ha : s.active = true) (hc : s.currentTouched = true)
    (hd : s.debouncedTouched = false) (hr : s.lastReportedTouched = false)
    (hdw : sub32 now s.lastChangeTime ≥ TOUCH_DEBOUNCE_PRESS_MS)
    (hw : wd.active = false) :
    debounceChannel now L s wd wu =
      ({ s with debouncedTouched := true, lastReportedTouched := true },
       wd, wu, []) := by
  obtain ⟨sa, sc, sd, sr, sT⟩ := s
  dsimp only at ha hc hd hr hdw ⊢
  subst ha
  subst hc
  subst hd
  subst hr
  unfold debounceChannel
  simp only [Bool.not_true, reduceIte, ne_eq, Bool.true_eq_false, not_false_eq_true,
    Bool.false_eq_true]
  rw [if_pos hdw]
  have h3 : ¬ (wd.active = true) := by
    rw [hw]
    decide
  rw [if_neg h3]

theorem debounceChannel_events (now : Nat) (L : Char) (s : TouchSensorState)
    (wd wu : ExpectState) :
    ∀ e ∈ (debounceChannel now L s wd wu).2.2.2,
      (e.type = EventType.TOUCHED ∧ e.commandId = wd.commandId) ∨
      (e.type = EventType.TOUCH_RELEASED ∧ e.commandId = wu.commandId) := by
  intro e he
  unfold debounceChannel at he
  dsimp only at he
  repeat' split at he
  all_goals simp only [List.mem_singleton, List.not_mem_nil] at he
  all_goals
    (subst he
     first
      | exact Or.inl ⟨rfl, rfl⟩
      | exact Or.inr ⟨rfl, rfl⟩)

theorem flatMap_eq_nil_of_all {α : Type} (f : Nat → List α) :
    ∀ l : List Nat, (∀ k ∈ l, f k = []) → l.flatMap f = [] := by
  intro l
  induction l with
  | nil => intro _; rfl
  | cons j rest ih =>
    intro h
    rw [List.flatMap_cons, h j (List.mem_cons_self j rest),
      ih (fun k hk => h k (List.mem_cons_of_mem _ hk))]
    rfl

theorem flatMap_single {α : Type} (f : Nat → List α) (i : Nat) :
    ∀ l : List Nat, l.Nodup → i ∈ l → (∀ k ∈ l, k ≠ i → f k = []) →
      l.flatMap f = f i := by
  intro l
  induction l with
  | nil => intro _ hmem _; cases hmem
  | cons j rest ih =>
    intro hnd hmem hz
    have hnd' := List.nodup_cons.mp hnd
    rw [List.flatMap_cons]
    rcases List.mem_cons.mp hmem with rfl | hmem'
    · rw [flatMap_eq_nil_of_all f rest
        (fun k hk => hz k (List.mem_cons_of_mem _ hk)
          (fun he => hnd'.1 (he ▸ hk)))]
      rw [List.append_nil]
    · have hji : j ≠ i := by
        rintro rfl
        exact hnd'.1 hmem'
      rw [hz j (List.mem_cons_self j rest) hji,
        ih hnd'.2 hmem' (fun k hk hki => hz k (List.mem_cons_of_mem _ hk) hki)]
      rfl

/-- C6 — one-shot press watches: (a) while the watched channel reports no
transition, a debounce pass (in particular one in which a different
channel reports a press) leaves the channel's press-watch with id `N`
armed and emits no TOUCHED event carrying id `N` (no other channel's
watch carries `N`); (b) the first reported press on the watched channel
emits exactly one event — TOUCHED with id `N` — and disarms the watch;
(c) a reported press on the channel with its press-watch disarmed and no
other channel reporting emits no event at all. -/
theorem expect_watch_one_shot (now : Nat) (ts : TouchState) (i N : Nat)
    (hi : i < TOUCH_SENSOR_COUNT) :
    (ts.expectDown i = { active := true, commandId := N } →
     (ts.sensors i).currentTouched = (ts.sensors i).debouncedTouched →
     (∀ k, k < TOUCH_SENSOR_COUNT → k ≠ i →
        (ts.expectDown k).commandId ≠ N ∧ (ts.expectUp k).commandId ≠ N) →
     (processDebounce now ts).1.expectDown i = { active := true, commandId := N } ∧
     (∀ e ∈ (processDebounce now ts).2,
        ¬ (e.type = EventType.TOUCHED ∧ e.commandId = N))) ∧
    (ts.expectDown i = { active := true, commandId := N } →
     (ts.sensors i).active = true →
     (ts.sensors i).currentTouched = true →
     (ts.sensors i).debouncedTouched = false →
     (ts.sensors i).lastReportedTouched = false →
     sub32 now (ts.sensors i).lastChangeTime ≥ TOUCH_DEBOUNCE_PRESS_MS →
     (∀ k, k ≠ i → (ts.sensors k).currentTouched = (ts.sensors k).debouncedTouched) →
     (processDebounce now ts).2 = [mkTouched (indexToLetter i) N] ∧
     (processDebounce now ts).1.expectDown i = inactiveExpect) ∧
    ((ts.expectDown i).active = false →
     (ts.sensors i).active = true →
     (ts.sensors i).currentTouched = true →
     (ts.sensors i).debouncedTouched = false →
     (ts.sensors i).lastReportedTouched = false →
     sub32 now (ts.sensors i).lastChangeTime ≥ TOUCH_DEBOUNCE_PRESS_MS →
     (∀ k, k ≠ i → (ts.sensors k).currentTouched = (ts.sensors k).debouncedTouched) →
     (processDebounce now ts).2 = []) := by
  obtain ⟨hcomp, hevs⟩ := processDebounce_spec now ts
  refine ⟨?_, ?_, ?_⟩
  · intro hwd hidle hothers
    obtain ⟨_, hwdi, _⟩ := hcomp i hi
    have hch : chanResult now ts i =
        (ts.sensors i, ts.expectDown i, ts.expectUp i, []) := by
      unfold chanResult
      exact debounceChannel_idle _ _ _ _ _ hidle
    constructor
    · rw [hwdi, hch, hwd]
    · intro e he
      rw [hevs] at he
      obtain ⟨k, hk, hek⟩ := List.mem_flatMap.mp he
      have hklt : k < TOUCH_SENSOR_COUNT := List.mem_range.mp hk
      by_cases hki : k = i
      · subst hki
        rw [hch] at hek
        simp at hek
      · rcases debounceChannel_events now (indexToLetter k) (ts.sensors k)
          (ts.expectDown k) (ts.expectUp k) e hek with ⟨_, hid⟩ | ⟨_, hid⟩
        · rintro ⟨_, hN⟩
          exact (hothers k hklt hki).1 (hid ▸ hN)
        · rintro ⟨_, hN⟩
          exact (hothers k hklt hki).2 (hid ▸ hN)
  · intro hwd ha hc hd hr hdw hothers
    have hch : chanResult now ts i =
        ({ ts.sensors i with debouncedTouched := true, lastReportedTouched := true },
         inactiveExpect, ts.expectUp i, [mkTouched (indexToLetter i) N]) := by
      unfold chanResult
      rw [debounceChannel_press_consume now _ _ _ _ ha hc hd hr hdw (by rw [hwd])]
      rw [hwd]
    constructor
    · rw [hevs]
      rw [flatMap_single _ i _ (List.nodup_range _) (List.mem_range.mpr hi) ?_]
      · rw [hch]
      · intro k _ hki
        unfold chanResult
        rw [debounceChannel_idle _ _ _ _ _ (hothers k hki)]
    · obtain ⟨_, hwdi, _⟩ := hcomp i hi
      rw [hwdi, hch]
  · intro hwd ha hc hd hr hdw hothers
    rw [hevs]
    apply flatMap_eq_nil_of_all
    intro k _
    by_cases hki : k = i
    · subst hki
      unfold chanResult
      rw [debounceChannel_press_silent now _ _ _ _ ha hc hd hr hdw hwd]
    · unfold chanResult
      rw [debounceChannel_idle _ _ _ _ _ (hothers k hki)]

/-- `pollChannel` is the per-channel effect of the `pollSensors` loop body. -/
theorem pollSensorAt_channel (now : Nat) (ts : TouchState) (bus : Bus) (i : Nat) :
    (pollSensorAt now (ts, bus) i).1.sensors i =
      pollChannel now (decide ((readRawTouch bus (sensorAddr i)).1 ≠ 0)) (ts.sensors i) := by
  unfold pollSensorAt pollChannel
  dsimp only
  split
  · rfl
  · split
    · dsimp only
      rw [if_pos rfl]
    · rfl

theorem channelRun_cons (letter : Char) (sample : Nat × Bool) (rest : List (Nat × Bool))
    (st : TouchSensorState × ExpectState × ExpectState) :
    channelRun letter (sample :: rest) st =
      ((channelRun letter rest (channelStep letter st sample).1).1,
       (channelStep letter st sample).2 ++
         (channelRun letter rest (channelStep letter st sample).1).2) := rfl

theorem channelStep_osc (letter : Char) (t : Nat) (b d0 : Bool) (s : TouchSensorState)
    (wd wu : ExpectState) (ha : s.active = true) (hd : s.debouncedTouched = d0)
    (hr : s.lastReportedTouched = d0)
    (hosc : b = d0 ∨ s.currentTouched ≠ b ∨
      sub32 t s.lastChangeTime <
        (if b then TOUCH_DEBOUNCE_PRESS_MS else TOUCH_DEBOUNCE_RELEASE_MS)) :
    ((channelStep letter (s, wd, wu) (t, b)).1.1.active = true ∧
     (channelStep letter (s, wd, wu) (t, b)).1.1.debouncedTouched = d0 ∧
     (channelStep letter (s, wd, wu) (t, b)).1.1.lastReportedTouched = d0) ∧
    (channelStep letter (s, wd, wu) (t, b)).1.2.1 = wd ∧
    (channelStep letter (s, wd, wu) (t, b)).1.2.2 = wu ∧
    (channelStep letter (s, wd, wu) (t, b)).2 = [] := by
  have hactive : ¬ ((!s.active) = true) := by
    rw [ha]
    decide
  by_cases hcur : b = s.currentTouched
  · have hpoll : pollChannel t b s = s := by
      unfold pollChannel
      rw [if_neg hactive, if_neg (fun hne => hne hcur)]
    by_cases hbd : b = d0
    · have hcd : s.currentTouched = s.debouncedTouched := by
        rw [← hcur, hd]
        exact hbd
      have hstep : channelStep letter (s, wd, wu) (t, b) = ((s, wd, wu), []) := by
        unfold channelStep
        dsimp only
        rw [hpoll, debounceChannel_idle _ _ _ _ _ hcd]
      rw [hstep]
      exact ⟨⟨ha, hd, hr⟩, rfl, rfl, rfl⟩
    · have hcd : s.currentTouched ≠ s.debouncedTouched := by
        rw [← hcur, hd]
        exact hbd
      have hlt : sub32 t s.lastChangeTime <
          (if s.currentTouched then TOUCH_DEBOUNCE_PRESS_MS else TOUCH_DEBOUNCE_RELEASE_MS) := by
        rw [← hcur]
        rcases hosc with h1 | h2 | h3
        · exact absurd h1 hbd
        · exact absurd hcur.symm h2
        · exact h3
      have hstep : channelStep letter (s, wd, wu) (t, b) = ((s, wd, wu), []) := by
        unfold channelStep
        dsimp only
        rw [hpoll, debounceChannel_pending _ _ _ _ _ hcd hlt]
      rw [hstep]
      exact ⟨⟨ha, hd, hr⟩, rfl, rfl, rfl⟩
  · by_cases hbd : b = d0
    · have hpoll : pollChannel t b s =
          { s with currentTouched := b, lastChangeTime := s.lastChangeTime } := by
        unfold pollChannel
        rw [if_neg hactive, if_pos hcur]
        have hnd : ¬ (b ≠ s.debouncedTouched) := by
          rw [hd]
          exact fun hne => hne hbd
        rw [if_neg hnd]
      have hstep : channelStep letter (s, wd, wu) (t, b) =
          (({ s with currentTouched := b, lastChangeTime := s.lastChangeTime }, wd, wu),
           []) := by
        unfold channelStep
        dsimp only
        rw [hpoll, debounceChannel_idle _ _ _ _ _ (by dsimp only; rw [hd]; exact hbd)]
      rw [hstep]
      exact ⟨⟨ha, hd, hr⟩, rfl, rfl, rfl⟩
    · have hpoll : pollChannel t b s =
          { s with currentTouched := b, lastChangeTime := t } := by
        unfold pollChannel
        rw [if_neg hactive, if_pos hcur]
        have hnd : b ≠ s.debouncedTouched := by
          rw [hd]
          exact hbd
        rw [if_pos hnd]
      have hlt : sub32 t ({ s with currentTouched := b, lastChangeTime := t } :
            TouchSensorState).lastChangeTime <
          (if ({ s with currentTouched := b, lastChangeTime := t } :
            TouchSensorState).currentTouched then TOUCH_DEBOUNCE_PRESS_MS
           else TOUCH_DEBOUNCE_RELEASE_MS) := by
        dsimp only
        rw [sub32_self]
        cases b <;> decide
      have hstep : channelStep letter (s, wd, wu) (t, b) =
          (({ s with currentTouched := b, lastChangeTime := t }, wd, wu), []) := by
        unfold channelStep
        dsimp only
        rw [hpoll, debounceChannel_pending _ _ _ _ _ (by dsimp only; rw [hd]; exact hbd) hlt]
      rw [hstep]
      exact ⟨⟨ha, hd, hr⟩, rfl, rfl, rfl⟩

theorem channelRun_osc (letter : Char) (d0 : Bool) :
    ∀ (samples : List (Nat × Bool)) (s : TouchSensorState) (wd wu : ExpectState),
      s.active = true → s.debouncedTouched = d0 → s.lastReportedTouched = d0 →
      oscillatoryB d0 letter samples (s, wd, wu) = true →
      (channelRun letter samples (s, wd, wu)).1.1.active = true ∧
      (channelRun letter samples (s, wd, wu)).1.1.debouncedTouched = d0 ∧
      (channelRun letter samples (s, wd, wu)).1.1.lastReportedTouched = d0 ∧
      (channelRun letter samples (s, wd, wu)).1.2.1 = wd ∧
      (channelRun letter samples (s, wd, wu)).1.2.2 = wu ∧
      (channelRun letter samples (s, wd, wu)).2 = [] := by
  intro samples
  induction samples with
  | nil =>
    intro s wd wu ha hd hr _
    exact ⟨ha, hd, hr, rfl, rfl, rfl⟩
  | cons sample rest ih =>
    obtain ⟨t, b⟩ := sample
    intro s wd wu ha hd hr hosc
    unfold oscillatoryB at hosc
    rw [Bool.and_eq_true] at hosc
    obtain ⟨hosc1, hoscrest⟩ := hosc
    have hosc1' : b = d0 ∨ s.currentTouched ≠ b ∨
        sub32 t s.lastChangeTime <
          (if b then TOUCH_DEBOUNCE_PRESS_MS else TOUCH_DEBOUNCE_RELEASE_MS) := by
      simp only [Bool.or_eq_true, beq_iff_eq, bne_iff_ne, ne_eq,
        decide_eq_true_eq] at hosc1
      tauto
    have hstep := channelStep_osc letter t b d0 s wd wu ha hd hr hosc1'
    rcases hstepeq : channelStep letter (s, wd, wu) (t, b) with ⟨⟨s', wd2, wu2⟩, evs1⟩
    rw [hstepeq] at hstep hoscrest
    dsimp only at hstep hoscrest
    obtain ⟨⟨ha', hd', hr'⟩, hwd2, hwu2, hevs1⟩ := hstep
    obtain ⟨iha, ihd, ihr, ihwd, ihwu, ihevs⟩ := ih s' wd2 wu2 ha' hd' hr' hoscrest
    have hrun := channelRun_cons letter (t, b) rest (s, wd, wu)
    rw [hstepeq] at hrun
    dsimp only at hrun
    rw [hrun]
    refine ⟨iha, ihd, ihr, ?_, ?_, ?_⟩
    · rw [ihwd, hwd2]
    · rw [ihwu, hwu2]
    · rw [hevs1, ihevs]
      rfl

theorem debounceChannel_release_consume (now : Nat) (L : Char) (s : TouchSensorState)
    (wd wu : ExpectState) (ha : s.active = true) (hc : s.currentTouched = false)
    (hd : s.debouncedTouched = true) (hr : s.lastReportedTouched = true)
    (hdw : sub32 now s.lastChangeTime ≥ TOUCH_DEBOUNCE_RELEASE_MS)
    (hw : wu.active = true) :
    debounceChannel now L s wd wu =
      ({ s with debouncedTouched := false, lastReportedTouched := false },
       wd, inactiveExpect, [mkTouchReleased L wu.commandId]) := by
  obtain ⟨sa, sc, sd, sr, sT⟩ := s
  dsimp only at ha hc hd hr hdw ⊢
  subst ha
  subst hc
  subst hd
  subst hr
  unfold debounceChannel
  simp only [Bool.not_true, reduceIte, ne_eq, Bool.true_eq_false, not_false_eq_true,
    Bool.false_eq_true]
  rw [if_pos hdw, if_pos hw]

theorem debounceChannel_release_silent (now : Nat) (L : Char) (s : TouchSensorState)
    (wd wu : ExpectState) (ha : s.active = true) (hc : s.currentTouched = false)
    (hd : s.debouncedTouched = true) (hr : s.lastReportedTouched = true)
    (hdw : sub32 now s.lastChangeTime ≥ TOUCH_DEBOUNCE_RELEASE_MS)
    (hw : wu.active = false) :
    debounceChannel now L s wd wu =
      ({ s with debouncedTouched := false, lastReportedTouched := false },
       wd, wu, []) := by
  obtain ⟨sa, sc, sd, sr, sT⟩ := s
  dsimp only at ha hc hd hr hdw ⊢
  subst ha
  subst hc
  subst hd
  subst hr
  unfold debounceChannel
  simp only [Bool.not_true, reduceIte, ne_eq, Bool.true_eq_false, not_false_eq_true,
    Bool.false_eq_true]
  rw [if_pos hdw]
  have h3 : ¬ (wu.active = true) := by
    rw [hw]
    decide
  rw [if_neg h3]

theorem channelRun_converged (letter : Char) (v : Bool) :
    ∀ rest : List (Nat × Bool), (∀ p ∈ rest, p.2 = v) →
      ∀ st : TouchSensorState × ExpectState × ExpectState,
        st.1.currentTouched = v → st.1.debouncedTouched = v →
        channelRun letter rest st = (st, []) := by
  intro rest
  induction rest with
  | nil => intro _ st _ _; rfl
  | cons sample rest' ih =>
    obtain ⟨t, b⟩ := sample
    intro hall st hc hd
    have hb : b = v := hall (t, b) (List.mem_cons_self _ _)
    subst hb
    have hpoll : pollChannel t b st.1 = st.1 := by
      unfold pollChannel
      split
      · rfl
      · rw [if_neg (fun hne => hne hc.symm)]
    have hstep : channelStep letter st (t, b) = (st, []) := by
      unfold channelStep
      dsimp only
      rw [hpoll, debounceChannel_idle _ _ _ _ _ (by rw [hc, hd])]
    rw [channelRun_cons, hstep]
    dsimp only
    rw [ih (fun p hp => hall p (List.mem_cons_of_mem _ hp)) st hc hd]
    rfl

theorem channelRun_stable (letter : Char) (v : Bool) (t1 t2 : Nat)
    (rest : List (Nat × Bool)) (s : TouchSensorState) (wd wu : ExpectState)
    (hrest : ∀ p ∈ rest, p.2 = v)
    (ha : s.active = true) (hc : s.currentTouched = !v) (hd : s.debouncedTouched = !v)
    (hr : s.lastReportedTouched = !v)
    (hdw : sub32 t2 t1 ≥ (if v then TOUCH_DEBOUNCE_PRESS_MS else TOUCH_DEBOUNCE_RELEASE_MS)) :
    ((channelRun letter [(t1, v)] (s, wd, wu)).1.1.debouncedTouched = !v ∧
     (channelRun letter [(t1, v)] (s, wd, wu)).1.1.lastReportedTouched = !v ∧
     (channelRun letter [(t1, v)] (s, wd, wu)).2 = []) ∧
    (channelRun letter ((t1, v) :: (t2, v) :: rest) (s, wd, wu)).1.1.debouncedTouched = v ∧
    (channelRun letter ((t1, v) :: (t2, v) :: rest) (s, wd, wu)).1.1.lastReportedTouched = v ∧
    (channelRun letter ((t1, v) :: (t2, v) :: rest) (s, wd, wu)).2 =
      (if v then (if wd.active then [mkTouched letter wd.commandId] else [])
       else (if wu.active then [mkTouchReleased letter wu.commandId] else [])) := by
  have hvne : v ≠ !v := by cases v <;> decide
  have hpoll1 : pollChannel t1 v s = { s with currentTouched := v, lastChangeTime := t1 } := by
    unfold pollChannel
    have hactive : ¬ ((!s.active) = true) := by
      rw [ha]
      decide
    rw [if_neg hactive, if_pos (by rw [hc]; exact hvne), if_pos (by rw [hd]; exact hvne)]
  have hstep1 : channelStep letter (s, wd, wu) (t1, v) =
      (({ s with currentTouched := v, lastChangeTime := t1 }, wd, wu), []) := by
    unfold channelStep
    dsimp only
    rw [hpoll1, debounceChannel_pending _ _ _ _ _ (by dsimp only; rw [hd]; exact hvne) ?_]
    dsimp only
    rw [sub32_self]
    cases v <;> decide
  have hone : channelRun letter [(t1, v)] (s, wd, wu) =
      (({ s with currentTouched := v, lastChangeTime := t1 }, wd, wu), []) := by
    rw [channelRun_cons, hstep1]
    rfl
  set s1 : TouchSensorState := { s with currentTouched := v, lastChangeTime := t1 } with hs1
  have hpoll2 : pollChannel t2 v s1 = s1 := by
    unfold pollChannel
    split
    · rfl
    · rw [if_neg (fun hne => hne rfl)]
  have hs1a : s1.active = true := ha
  have hs1c : s1.currentTouched = v := rfl
  have hs1d : s1.debouncedTouched = !v := hd
  have hs1r : s1.lastReportedTouched = !v := hr
  refine ⟨?_, ?_⟩
  · rw [hone]
    exact ⟨hd, hr, rfl⟩
  · cases v
    · -- release direction
      have hstep2 : channelStep letter (s1, wd, wu) (t2, false) =
          ((({ s1 with debouncedTouched := false, lastReportedTouched := false } :
              TouchSensorState),
            wd, (if wu.active then inactiveExpect else wu)),
           (if wu.active then [mkTouchReleased letter wu.commandId] else [])) := by
        unfold channelStep
        dsimp only
        rw [hpoll2]
        by_cases hwa : wu.active = true
        · rw [debounceChannel_release_consume t2 letter s1 wd wu hs1a hs1c
            (by rw [hs1d]; decide) (by rw [hs1r]; decide) (by exact hdw) hwa]
          rw [if_pos hwa, if_pos hwa]
        · have hwa' : wu.active = false := by
            cases hq : wu.active
            · rfl
            · exact absurd hq hwa
          rw [debounceChannel_release_silent t2 letter s1 wd wu hs1a hs1c
            (by rw [hs1d]; decide) (by rw [hs1r]; decide) (by exact hdw) hwa']
          rw [if_neg hwa, if_neg hwa]
      have hconv := channelRun_converged letter false rest hrest
        (({ s1 with debouncedTouched := false, lastReportedTouched := false } :
            TouchSensorState),
         wd, (if wu.active then inactiveExpect else wu))
        hs1c rfl
      rw [channelRun_cons, hstep1]
      dsimp only
      rw [channelRun_cons, hstep2]
      dsimp only
      rw [hconv]
      exact ⟨rfl, rfl, by simp⟩
    · -- press direction
      have hstep2 : channelStep letter (s1, wd, wu) (t2, true) =
          ((({ s1 with debouncedTouched := true, lastReportedTouched := true } :
              TouchSensorState),
            (if wd.active then inactiveExpect else wd), wu),
           (if wd.active then [mkTouched letter wd.commandId] else [])) := by
        unfold channelStep
        dsimp only
        rw [hpoll2]
        by_cases hwa : wd.active = true
        · rw [debounceChannel_press_consume t2 letter s1 wd wu hs1a hs1c
            (by rw [hs1d]; decide) (by rw [hs1r]; decide) (by exact hdw) hwa]
          rw [if_pos hwa, if_pos hwa]
        · have hwa' : wd.active = false := by
            cases hq : wd.active
            · rfl
            · exact absurd hq hwa
          rw [debounceChannel_press_silent t2 letter s1 wd wu hs1a hs1c
            (by rw [hs1d]; decide) (by rw [hs1r]; decide) (by exact hdw) hwa']
          rw [if_neg hwa, if_neg hwa]
      have hconv := channelRun_converged letter true rest hrest
        (({ s1 with debouncedTouched := true, lastReportedTouched := true } :
            TouchSensorState),
         (if wd.active then inactiveExpect else wd), wu)
        hs1c rfl
      rw [channelRun_cons, hstep1]
      dsimp only
      rw [channelRun_cons, hstep2]
      dsimp only
      rw [hconv]
      exact ⟨rfl, rfl, by simp⟩

/-- C5 — debounce dwell: on an active channel whose debounced and
last-reported values start at `d0`, (i) a raw sample sequence that
oscillates so that "current" never stays diverged from `d0` for the
direction-dependent dwell (press dwell for a press, release dwell for a
release, timed from the recorded divergence) never changes the debounced
value, never reports, and leaves both watches untouched; (ii) a raw
value `v` held stable — one sample recording the divergence at `t1`, a
second at `t2` past the dwell, then arbitrarily many more samples of
`v` — yields no report before the dwell and then exactly one reported
transition: debounced and last-reported become `v` at the second sample
and never change again, with at most the single matching watch event
emitted over the whole run. -/
theorem debounce_dwell (letter : Char) (d0 v : Bool) (t1 t2 : Nat)
    (samples rest : List (Nat × Bool)) (s : TouchSensorState) (wd wu : ExpectState)
    (ha : s.active = true) :
    (s.debouncedTouched = d0 → s.lastReportedTouched = d0 →
     oscillatoryB d0 letter samples (s, wd, wu) = true →
     (channelRun letter samples (s, wd, wu)).1.1.debouncedTouched = d0 ∧
     (channelRun letter samples (s, wd, wu)).1.1.lastReportedTouched = d0 ∧
     (channelRun letter samples (s, wd, wu)).1.2.1 = wd ∧
     (channelRun letter samples (s, wd, wu)).1.2.2 = wu ∧
     (channelRun letter samples (s, wd, wu)).2 = []) ∧
    (s.currentTouched = !v → s.debouncedTouched = !v → s.lastReportedTouched = !v →
     (∀ p ∈ rest, p.2 = v) →
     sub32 t2 t1 ≥ (if v then TOUCH_DEBOUNCE_PRESS_MS else TOUCH_DEBOUNCE_RELEASE_MS) →
     ((channelRun letter [(t1, v)] (s, wd, wu)).1.1.debouncedTouched = !v ∧
      (channelRun letter [(t1, v)] (s, wd, wu)).1.1.lastReportedTouched = !v ∧
      (channelRun letter [(t1, v)] (s, wd, wu)).2 = []) ∧
     (channelRun letter ((t1, v) :: (t2, v) :: rest) (s, wd, wu)).1.1.debouncedTouched = v ∧
     (channelRun letter ((t1, v) :: (t2, v) :: rest) (s, wd, wu)).1.1.lastReportedTouched = v ∧
     (channelRun letter ((t1, v) :: (t2, v) :: rest) (s, wd, wu)).2 =
       (if v then (if wd.active then [mkTouched letter wd.commandId] else [])
        else (if wu.active then [mkTouchReleased letter wu.commandId] else []))) := by
  constructor
  · intro hd hr hosc
    obtain ⟨_, h2, h3, h4, h5, h6⟩ := channelRun_osc letter d0 samples s wd wu ha hd hr hosc
    exact ⟨h2, h3, h4, h5, h6⟩
  · intro hc hd hr hrest hdw
    exact channelRun_stable letter v t1 t2 rest s wd wu hrest ha hc hd hr hdw

-- ===========================================================================
-- Concrete witnesses
-- ===========================================================================

theorem success_animation_five_steps_witness :
    ((ledTicks 0 SUCCESS_EXPANSION_RADIUS ((ledSuccess 0 0 ledInit).1)).positions 0).state =
      PositionState.EXPANDED :=
  ((success_animation_five_steps.1 ledInit 0 0 (by decide) rfl).2.1)

theorem show_hide_clears_position_witness :
    ((ledHide 0 (ledShow 0 ledInit).1).1.positions 0).state = PositionState.OFF :=
  (show_hide_clears_position ledInit 0 (by decide)).1

theorem menu_sweep_lights_consecutive_witness :
    isMenuChangeAnimationComplete
      (menuTicks 0 2 (startMenuChangeAnimation 1 2 3 0 0 ledInit)) = true :=
  (menu_sweep_lights_consecutive 1 2 3 0 0 ledInit (by decide)).2

theorem expansion_radius_invariant_witness :
    contractStep 0 ledInit = (ledInit, true) :=
  expansion_radius_invariant.2.2 ledInit 0 (by decide) rfl

theorem event_id_suffix_witness :
    List.IsSuffix ([' ', '#'] ++ natChars 7 ++ ['\n'])
      (formatEvent (mkAck ("SHOW").data 'A' 7)) :=
  ((event_id_suffix (mkAck ("SHOW").data 'A' 7) (by decide) (by decide) (by decide)
      (by decide) (by decide)).1).mpr (by decide)

theorem long_running_admission_witness :
    (executeCommand 5
      { led := ledInit
        touch := { sensors := fun _ => inactiveSensor
                   expectDown := fun _ => inactiveExpect
                   expectUp := fun _ => inactiveExpect }
        bus := { regs := fun _ _ => none, writeOk := fun _ _ => true, writes := [] }
        touchPresent := true
        table := [{ command := emptyCommand, active := false, startTime := 0, state := 0 }] }
      { emptyCommand with action := CommandAction.SEQUENCE_COMPLETED, valid := true }).2 =
      [mkAck (actionToString CommandAction.SEQUENCE_COMPLETED) charZero COMMAND_ID_NONE] :=
  ((long_running_admission 5
      { led := ledInit
        touch := { sensors := fun _ => inactiveSensor
                   expectDown := fun _ => inactiveExpect
                   expectUp := fun _ => inactiveExpect }
        bus := { regs := fun _ _ => none, writeOk := fun _ _ => true, writes := [] }
        touchPresent := true
        table := [{ command := emptyCommand, active := false, startTime := 0, state := 0 }] }
      { emptyCommand with action := CommandAction.SEQUENCE_COMPLETED, valid := true }
      rfl rfl).2.1 rfl).1

theorem debounce_dwell_witness :
    (channelRun 'A' [(0, true), (100, true)]
      ({ active := true, currentTouched := false, debouncedTouched := false,
         lastReportedTouched := false, lastChangeTime := 0 },
       { active := true, commandId := 7 }, inactiveExpect)).2 =
      [mkTouched 'A' 7] := by
  have h := ((debounce_dwell 'A' false true 0 100 [] []
    { active := true, currentTouched := false, debouncedTouched := false,
      lastReportedTouched := false, lastChangeTime := 0 }
    { active := true, commandId := 7 } inactiveExpect rfl).2
    (by decide) (by decide) (by decide)
    (fun p hp => absurd hp (List.not_mem_nil p)) (by decide)).2.2.2
  exact h

theorem expect_watch_one_shot_witness :
    (processDebounce 100
      { sensors := fun i =>
          if i = 0 then
            { active := true, currentTouched := true, debouncedTouched := false,
              lastReportedTouched := false, lastChangeTime := 0 }
          else inactiveSensor
        expectDown := fun i =>
          if i = 0 then { active := true, commandId := 7 } else inactiveExpect
        expectUp := fun _ => inactiveExpect }).2 =
      [mkTouched (indexToLetter 0) 7] := by
  have h := (expect_watch_one_shot 100
    { sensors := fun i =>
        if i = 0 then
          { active := true, currentTouched := true, debouncedTouched := false,
            lastReportedTouched := false, lastChangeTime := 0 }
        else inactiveSensor
      expectDown := fun i =>
        if i = 0 then { active := true, commandId := 7 } else inactiveExpect
      expectUp := fun _ => inactiveExpect } 0 7 (by decide)).2.1
  refine (h rfl rfl rfl rfl rfl (by decide) ?_).1
  intro k hk
  dsimp only
  rw [if_neg hk]
  rfl

theorem set_sensitivity_levels_witness :
    parseLineM (("SET_SENSITIVITY ").data ++ [indexToLetter 0, ' ', digitChar 3]) =
      (some { emptyCommand with
                action := CommandAction.SET_SENSITIVITY
                hasPosition := true
                position := indexToLetter 0
                positionIndex := 0
                extraValue := 3
                valid := true }, []) :=
  (set_sensitivity_levels 0 0 3 47 (by decide) (by decide) (by decide)
    { led := ledInit
      touch := { sensors := fun i =>
                   if i = 0 then
                     { active := true, currentTouched := false, debouncedTouched := false,
                       lastReportedTouched := false, lastChangeTime := 0 }
                   else inactiveSensor
                 expectDown := fun _ => inactiveExpect
                 expectUp := fun _ => inactiveExpect }
      bus := { regs := fun _ _ => some 47, writeOk := fun _ _ => true, writes := [] }
      touchPresent := true
      table := [] }
    rfl rfl rfl).1
